import Mathlib

/-!
Verification development for `huynhetoan/cpp-projects`.

Shallow embedding of three programs of the repository:

* `Rock_Paper_Scissors.cpp`: the console game (`RockPaperScissors`),
* `addressBook.cpp`: the array-based address book (`AddressBookProgram`),
* `3DPhysicsEngine.cpp`: the physics demo driver (`PhysicsDemo`).

Conventions of the embedding:

* console input and output are explicit state (pending tokens, printed text);
* a C++ `int` is an `Int`; a `float` of `runSimulation` is an IEEE 754 binary32 value
  with round-to-nearest-even arithmetic (`Float32`), a `float` of the engine that is
  modelled from the specification is an exact rational;
* behaviour that C++ leaves undefined (an array access out of bounds) and stream
  failures are `none`;
* loops carry the number of iterations left, or a fuel bound when that number is not
  known beforehand;
* the headers of the physics engine (`Math/`, `Physics/`, `Collision/`) are not in the
  repository; what the demo needs of them is modelled from the specification, and every
  such definition says so.

Definitions come first, theorems follow in the second half of the file.
-/

set_option autoImplicit false

/-! ## Part I. Definitions -/

/-! ### Rock_Paper_Scissors.cpp -/

namespace RockPaperScissors

/-- The prompt printed on line 11 of `Rock_Paper_Scissors.cpp`. -/
def promptText : String :=
  "Enter 0, 1, or 2:\n0 for (Rock)\n1 for (Paper)\n2 for (Scissors)\nYou chose: "

/-- Lines 14-15: `randomNum = rand() % 3; computer = '0' + randomNum;`.
`randValue` is the non-negative value returned by `rand()`; `'0'` is character code 48. -/
def computerChoice (randValue : Nat) : Char :=
  Char.ofNat ('0'.toNat + randValue % 3)

/-- Lines 18-30: the `if` / `else if` chain, returning the text that is printed
(without the trailing `std::endl`). -/
def verdict (player computer : Char) : String :=
  if player = computer then
    "It's a tie!"
  else if (player = '0' ∧ computer = '2') ∨
          (player = '1' ∧ computer = '0') ∨
          (player = '2' ∧ computer = '1') then
    "You win!"
  else if (player = '0' ∧ computer = '1') ∨
          (player = '1' ∧ computer = '2') ∨
          (player = '2' ∧ computer = '0') then
    "Computer wins!"
  else
    "Invalid input!"

/-- The whole of `main`: `player` is the character extracted by `std::cin >> player`,
`randValue` the value returned by `rand()`.  The result is everything written to
`std::cout`, one list entry per output statement. -/
def main (player : Char) (randValue : Nat) : List String :=
  let computer := computerChoice randValue
  [promptText,
   "Computer chose: " ++ String.singleton computer ++ "\n",
   verdict player computer ++ "\n"]

/-- The three moves of the game, as named in the prompt. -/
inductive Move where
  | rock
  | paper
  | scissors
deriving DecidableEq, Repr

/-- The encoding announced by the prompt: `0` for Rock, `1` for Paper, `2` for Scissors. -/
def Move.ofChar (c : Char) : Option Move :=
  if c = '0' then some Move.rock
  else if c = '1' then some Move.paper
  else if c = '2' then some Move.scissors
  else none

/-- The standard rules: Rock beats Scissors, Paper beats Rock, Scissors beats Paper. -/
def Move.beats : Move → Move → Bool
  | Move.rock, Move.scissors => true
  | Move.paper, Move.rock => true
  | Move.scissors, Move.paper => true
  | _, _ => false

end RockPaperScissors

/-! ### addressBook.cpp -/

namespace AddressBookProgram

/-- The record `struct Contact` (lines 4-8); `age` is a C++ `int`. -/
structure Contact where
  name : String
  phone : String
  age : Int
deriving DecidableEq, Repr

/-- The standard streams as explicit state: the whitespace-separated tokens still
pending on `std::cin` and the pieces of text written to `std::cout`, in order. -/
structure Console where
  cin : List String
  cout : List String
deriving DecidableEq, Repr

/-- The statement `std::cout << text`. -/
def Console.print (io : Console) (text : String) : Console :=
  { io with cout := io.cout ++ [text] }

/-- The statement `std::cin >> s` for a `std::string`: the next token is extracted.
An exhausted stream (extraction failure) is outside the model: `none`. -/
def Console.readString (io : Console) : Option (String × Console) :=
  match io.cin with
  | [] => none
  | tok :: rest => some (tok, { io with cin := rest })

/-- Value of a run of decimal digits, most significant first; `none` on any other
character. -/
def digitsValue : List Char → Nat → Option Nat
  | [], acc => some acc
  | c :: cs, acc =>
    if '0' ≤ c ∧ c ≤ '9' then digitsValue cs (acc * 10 + (c.toNat - '0'.toNat)) else none

/-- Decimal value of a token: an optional sign followed by at least one digit. -/
def tokenValue (tok : String) : Option Int :=
  match tok.data with
  | [] => none
  | '-' :: ds => if ds = [] then none else (digitsValue ds 0).map (fun n => -(n : Int))
  | '+' :: ds => if ds = [] then none else (digitsValue ds 0).map (fun n => (n : Int))
  | ds => (digitsValue ds 0).map (fun n => (n : Int))

/-- The statement `std::cin >> n` for an `int`: the next token is extracted and must
be a decimal number that fits a 32-bit `int`.  Anything else (exhausted stream,
malformed or out-of-range number) is an extraction failure, outside the model: `none`. -/
def Console.readInt (io : Console) : Option (Int × Console) :=
  match io.cin with
  | [] => none
  | tok :: rest =>
    match tokenValue tok with
    | none => none
    | some n =>
      if -2147483648 ≤ n ∧ n ≤ 2147483647 then some (n, { io with cin := rest }) else none

/-- The assignment `contacts[index] = value` on the caller's array.  An index outside
the array is undefined behaviour in C++: `none`. -/
def store (contacts : List Contact) (index : Int) (value : Contact) :
    Option (List Contact) :=
  if 0 ≤ index ∧ index.toNat < contacts.length then
    some (contacts.set index.toNat value)
  else
    none

/-- The function `addContact` (lines 13-32).  The reference parameter `count` and the
array are returned together with the console state. -/
def addContact (contacts : List Contact) (count : Int) (io : Console) :
    Option (List Contact × Int × Console) :=
  if count ≥ 10 then
    some (contacts, count, io.print "Address book is full.\n")
  else do
    let io := io.print "Enter name: "
    let (name, io) ← io.readString
    let io := io.print "Enter phone: "
    let (phone, io) ← io.readString
    let io := io.print "Enter age: "
    let (age, io) ← io.readInt
    let newContact : Contact := { name := name, phone := phone, age := age }
    let contacts ← store contacts count newContact
    some (contacts, count + 1, io.print "Contact added. \n")

/-- The text written for one contact by `listContacts` and `searchByName`
(lines 50-52 and 59-61); `std::endl` is the final newline. -/
def Contact.render (c : Contact) : String :=
  "Name: " ++ c.name ++ "\n Phone: " ++ c.phone ++ "\n Age: " ++ toString c.age ++ "\n"

/-- The loop of `listContacts` from index `i` with `remaining` iterations to go.
Reading outside the array is undefined behaviour: `none`. -/
def listContactsFrom (contacts : List Contact) : Nat → Nat → Console → Option Console
  | _, 0, io => some io
  | i, remaining + 1, io =>
    match contacts[i]? with
    | none => none
    | some c => listContactsFrom contacts (i + 1) remaining (io.print c.render)

/-- The function `listContacts` (lines 48-54): `for (int i = 0; i < count; ++i)` runs
`count` times when `count` is positive and not at all otherwise. -/
def listContacts (contacts : List Contact) (count : Int) (io : Console) : Option Console :=
  listContactsFrom contacts 0 count.toNat io

/-- The inner loop of `deleteContact` (lines 37-39),
`for (int j = i; j < count - 1; ++j) contacts[j] = contacts[j + 1];`, from index `j`
with `remaining` iterations to go.  An access outside the array is undefined behaviour:
`none`. -/
def shiftDown (contacts : List Contact) : Nat → Nat → Option (List Contact)
  | _, 0 => some contacts
  | j, remaining + 1 =>
    match contacts[j + 1]? with
    | none => none
    | some next =>
      if j < contacts.length then shiftDown (contacts.set j next) (j + 1) remaining
      else none

/-- The outer loop of `deleteContact` (lines 35-45) from index `i` with `remaining`
iterations to go. -/
def deleteContactFrom (contacts : List Contact) (count : Int) (name : String)
    (io : Console) : Nat → Nat → Option (List Contact × Int × Console)
  | _, 0 => some (contacts, count, io.print "Contact not found.\n")
  | i, remaining + 1 =>
    match contacts[i]? with
    | none => none
    | some c =>
      if c.name = name then
        match shiftDown contacts i (count - 1 - (i : Int)).toNat with
        | none => none
        | some shifted => some (shifted, count - 1, io.print "Contact Deleted.\n")
      else
        deleteContactFrom contacts count name io (i + 1) remaining

/-- The function `deleteContact` (lines 34-46). -/
def deleteContact (contacts : List Contact) (count : Int) (name : String) (io : Console) :
    Option (List Contact × Int × Console) :=
  deleteContactFrom contacts count name io 0 count.toNat

/-- The state of `main` (lines 69-70): the ten-slot array `contacts` and `count`. -/
structure AddressBook where
  contacts : List Contact
  count : Int
deriving DecidableEq, Repr

/-- An address book as `main` holds it: ten slots, of which the first `count` are in
use. -/
def AddressBook.WellFormed (book : AddressBook) : Prop :=
  book.contacts.length = 10 ∧ 0 ≤ book.count ∧ book.count ≤ 10

instance (book : AddressBook) : Decidable book.WellFormed := by
  unfold AddressBook.WellFormed; infer_instance

/-- A sample address book: ten slots, the first two in use. -/
def sampleBook : AddressBook :=
  { contacts :=
      [⟨"Ann", "555-0100", 31⟩, ⟨"Bob", "555-0101", 42⟩] ++ List.replicate 8 ⟨"", "", 0⟩
    count := 2 }

/-- A sample console: one contact waiting on the input, nothing printed yet. -/
def sampleConsole : Console :=
  { cin := ["Cleo", "555-0102", "27"], cout := [] }

end AddressBookProgram

/-! ### 3DPhysicsEngine.cpp -/

namespace PhysicsDemo

/-- Modelled from the spec: `Vector3` (`Math/Vector3.h` is not in the repository),
the 3D vector value type of §2.  Components are exact rationals standing for `float`. -/
structure Vector3 where
  x : ℚ
  y : ℚ
  z : ℚ
deriving DecidableEq, Repr

/-- Modelled from the spec: `Vector3` addition, componentwise. -/
def Vector3.add (a b : Vector3) : Vector3 :=
  ⟨a.x + b.x, a.y + b.y, a.z + b.z⟩

/-- Modelled from the spec: `Vector3` subtraction, componentwise. -/
def Vector3.sub (a b : Vector3) : Vector3 :=
  ⟨a.x - b.x, a.y - b.y, a.z - b.z⟩

/-- Modelled from the spec: product of a `Vector3` with a scalar. -/
def Vector3.scale (a : Vector3) (s : ℚ) : Vector3 :=
  ⟨a.x * s, a.y * s, a.z * s⟩

/-- Modelled from the spec: scalar product of two `Vector3`. -/
def Vector3.dot (a b : Vector3) : ℚ :=
  a.x * b.x + a.y * b.y + a.z * b.z

/-- Modelled from the spec: the zero `Vector3`. -/
def Vector3.zero : Vector3 :=
  ⟨0, 0, 0⟩

/-- Modelled from the spec: `Matrix3` (`Math/Matrix3.h` is not in the repository),
the 3x3 tensor type of §2; only the diagonal tensors of §4.1 are needed. -/
structure Matrix3 where
  xx : ℚ
  yy : ℚ
  zz : ℚ
deriving DecidableEq, Repr

/-- Modelled from the spec: `RigidBody` (`Physics/RigidBody.h` is not in the
repository), the per-body state of §3 that the demo touches.  Orientation, torque and the
sleep state are left out: nothing below depends on them. -/
structure RigidBody where
  position : Vector3
  linearVelocity : Vector3
  angularVelocity : Vector3
  forceAccum : Vector3
  inverseMass : ℚ
  inverseInertiaTensor : Matrix3
deriving DecidableEq, Repr

/-- Modelled from the spec: `setMass(m)` of §4.1 sets the inverse mass to `1/m`;
`setMass(0)` is rejected (`none`). -/
def RigidBody.setMass (body : RigidBody) (mass : ℚ) : Option RigidBody :=
  if mass = 0 then none else some { body with inverseMass := 1 / mass }

/-- Modelled from the spec: `setInfiniteMass()` of §4.1 sets the inverse mass to 0. -/
def RigidBody.setInfiniteMass (body : RigidBody) : RigidBody :=
  { body with inverseMass := 0 }

/-- Modelled from the spec: `hasFiniteMass()`; by §3 an inverse mass of exactly zero
marks an immovable (infinite-mass) body, every other body has finite mass. -/
def RigidBody.hasFiniteMass (body : RigidBody) : Bool :=
  decide (body.inverseMass ≠ 0)

/-- Modelled from the spec: `setPosition`. -/
def RigidBody.setPosition (body : RigidBody) (p : Vector3) : RigidBody :=
  { body with position := p }

/-- Modelled from the spec: `setLinearVelocity`. -/
def RigidBody.setLinearVelocity (body : RigidBody) (v : Vector3) : RigidBody :=
  { body with linearVelocity := v }

/-- Modelled from the spec: `setAngularVelocity`. -/
def RigidBody.setAngularVelocity (body : RigidBody) (w : Vector3) : RigidBody :=
  { body with angularVelocity := w }

/-- Modelled from the spec: `calculateSphereInertiaTensor(mass, radius)` of §4.1,
`2/5 * m * r^2 * Identity`. -/
def RigidBody.calculateSphereInertiaTensor (mass radius : ℚ) : Matrix3 :=
  let i := 2 / 5 * mass * radius ^ 2
  ⟨i, i, i⟩

/-- Modelled from the spec: `calculateBoxInertiaTensor(mass, x, y, z)` of §4.1, the
diagonal `1/12 * m * (sum of the squares of the other two dimensions)`. -/
def RigidBody.calculateBoxInertiaTensor (mass x y z : ℚ) : Matrix3 :=
  ⟨1 / 12 * mass * (y ^ 2 + z ^ 2), 1 / 12 * mass * (x ^ 2 + z ^ 2),
   1 / 12 * mass * (x ^ 2 + y ^ 2)⟩

/-- Modelled from the spec: `setInertiaTensor(tensor)` of §4.1 stores the inverse of the
given tensor; a tensor without inverse is rejected (`none`). -/
def RigidBody.setInertiaTensor (body : RigidBody) (tensor : Matrix3) : Option RigidBody :=
  if tensor.xx = 0 ∨ tensor.yy = 0 ∨ tensor.zz = 0 then none
  else some { body with
    inverseInertiaTensor := ⟨1 / tensor.xx, 1 / tensor.yy, 1 / tensor.zz⟩ }

/-- Modelled from the spec: the collision primitives of §3, a tagged variant over
sphere, box and plane.  `body` is the back-reference to the rigid body, given as its
index in `PhysicsExample.bodies`. -/
inductive CollisionPrimitive where
  | sphere (radius : ℚ) (body : Option Nat)
  | box (halfSize : Vector3) (body : Option Nat)
  | plane (normal : Vector3) (offset : ℚ) (body : Option Nat)
deriving DecidableEq, Repr

/-- Modelled from the spec: the force generators of §4.4; the demo only creates
`PhysicsWorld::Gravity`. -/
inductive ForceGenerator where
  | gravity (g : Vector3)
deriving DecidableEq, Repr

/-- Modelled from the spec: `PhysicsWorld` (`Physics/PhysicsWorld.h` is not in the
repository): the settings of §3 and §6, the primitive registry and the (body, generator)
registrations, bodies being referred to by index. -/
structure PhysicsWorld where
  maxContacts : Nat
  iterations : Nat
  gravity : Vector3
  damping : ℚ
  primitives : List CollisionPrimitive
  registrations : List (Nat × ForceGenerator)
deriving DecidableEq, Repr

/-- Modelled from the spec: world construction of §6 from the contact and iteration
caps; the registries start empty. -/
def PhysicsWorld.create (maxContacts iterations : Nat) : PhysicsWorld :=
  { maxContacts := maxContacts, iterations := iterations, gravity := Vector3.zero,
    damping := 1, primitives := [], registrations := [] }

/-- Modelled from the spec: `setGravity`. -/
def PhysicsWorld.setGravity (world : PhysicsWorld) (g : Vector3) : PhysicsWorld :=
  { world with gravity := g }

/-- Modelled from the spec: `setDamping`. -/
def PhysicsWorld.setDamping (world : PhysicsWorld) (d : ℚ) : PhysicsWorld :=
  { world with damping := d }

/-- Modelled from the spec: `addPrimitive` of §6 appends to the primitive registry. -/
def PhysicsWorld.addPrimitive (world : PhysicsWorld) (p : CollisionPrimitive) :
    PhysicsWorld :=
  { world with primitives := world.primitives ++ [p] }

/-- Modelled from the spec: `addForceGenerator(body, generator)` of §4.4 and §6 appends
the (body, generator) pair to the registrations. -/
def PhysicsWorld.addForceGenerator (world : PhysicsWorld) (body : Nat)
    (generator : ForceGenerator) : PhysicsWorld :=
  { world with registrations := world.registrations ++ [(body, generator)] }

/-- The members of `class PhysicsExample` (lines 17-19).  A `RigidBody*` is the index of
the body in `bodies`. -/
structure PhysicsExample where
  world : PhysicsWorld
  bodies : List RigidBody
  primitives : List CollisionPrimitive
deriving DecidableEq, Repr

/-- The method `createGround` (lines 36-48); `fresh` is a default-constructed body. -/
def PhysicsExample.createGround (ex : PhysicsExample) (fresh : RigidBody) :
    PhysicsExample :=
  let groundBody := fresh
  let groundBody := groundBody.setInfiniteMass
  let groundBody := groundBody.setPosition ⟨0, -1, 0⟩
  let groundBox := CollisionPrimitive.box ⟨10, 1 / 2, 10⟩ (some ex.bodies.length)
  { ex with
    bodies := ex.bodies ++ [groundBody]
    primitives := ex.primitives ++ [groundBox]
    world := ex.world.addPrimitive groundBox }

/-- The method `createTestObjects` (lines 50-78); `none` when a setter rejects its
argument. -/
def PhysicsExample.createTestObjects (ex : PhysicsExample) (fresh : RigidBody) :
    Option PhysicsExample := do
  let sphereBody := fresh
  let sphereBody ← sphereBody.setMass 1
  let sphereBody ←
    sphereBody.setInertiaTensor (RigidBody.calculateSphereInertiaTensor 1 (1 / 2))
  let sphereBody := sphereBody.setPosition ⟨0, 5, 0⟩
  let sphereBody := sphereBody.setLinearVelocity ⟨2, 0, 0⟩
  let spherePrimitive := CollisionPrimitive.sphere (1 / 2) (some ex.bodies.length)
  let ex : PhysicsExample :=
    { ex with
      bodies := ex.bodies ++ [sphereBody]
      primitives := ex.primitives ++ [spherePrimitive]
      world := ex.world.addPrimitive spherePrimitive }
  let boxBody := fresh
  let boxBody ← boxBody.setMass 2
  let boxBody ← boxBody.setInertiaTensor (RigidBody.calculateBoxInertiaTensor 2 1 1 1)
  let boxBody := boxBody.setPosition ⟨3, 8, 0⟩
  let boxBody := boxBody.setAngularVelocity ⟨0, 0, 1⟩
  let boxPrimitive := CollisionPrimitive.box ⟨1 / 2, 1 / 2, 1 / 2⟩ (some ex.bodies.length)
  some { ex with
    bodies := ex.bodies ++ [boxBody]
    primitives := ex.primitives ++ [boxPrimitive]
    world := ex.world.addPrimitive boxPrimitive }

/-- The `for` loop of `setupForceGenerators` (lines 83-87) over the bodies that remain,
`index` being the position of the first of them in `bodies`. -/
def registerGravity (gravity : ForceGenerator) :
    List RigidBody → Nat → PhysicsWorld → PhysicsWorld
  | [], _, world => world
  | body :: rest, index, world =>
    if body.hasFiniteMass then
      registerGravity gravity rest (index + 1) (world.addForceGenerator index gravity)
    else
      registerGravity gravity rest (index + 1) world

/-- The method `setupForceGenerators` (lines 80-88).  The generator, which the source
holds in a local `unique_ptr` and registers by pointer, is registered by value. -/
def PhysicsExample.setupForceGenerators (ex : PhysicsExample) : PhysicsExample :=
  let gravity := ForceGenerator.gravity ⟨0, -981 / 100, 0⟩
  { ex with world := registerGravity gravity ex.bodies 0 ex.world }

/-- The constructor `PhysicsExample()` (lines 21-34). -/
def PhysicsExample.create (fresh : RigidBody) : Option PhysicsExample := do
  let world := PhysicsWorld.create 100 10
  let world := world.setGravity ⟨0, -981 / 100, 0⟩
  let world := world.setDamping (99 / 100)
  let ex : PhysicsExample := { world := world, bodies := [], primitives := [] }
  let ex := ex.createGround fresh
  let ex ← ex.createTestObjects fresh
  some ex.setupForceGenerators

/-- Indices, counted from `index`, of the bodies of a list that have finite mass. -/
def finiteMassIndices : List RigidBody → Nat → List Nat
  | [], _ => []
  | body :: rest, index =>
    if body.hasFiniteMass then index :: finiteMassIndices rest (index + 1)
    else finiteMassIndices rest (index + 1)


/-- Modelled from the spec: a contact of §3, reduced to the pair of primitives (indices
into the world's primitive registry) that overlap.  Contact point, normal and
penetration depth are not part of the model. -/
structure Contact where
  first : Nat
  second : Nat
deriving DecidableEq, Repr

/-- Modelled from the spec: step (1) of the tick of §4.5, clearing the force
accumulator. -/
def RigidBody.clearAccumulators (body : RigidBody) : RigidBody :=
  { body with forceAccum := Vector3.zero }

/-- Modelled from the spec: `updateForce` of §4.4.  Gravity adds `mass * gravityVector`
as a linear force, only for finite-mass bodies; the mass is `1 / inverseMass`. -/
def ForceGenerator.updateForce : ForceGenerator → RigidBody → RigidBody
  | ForceGenerator.gravity g, body =>
    if body.hasFiniteMass then
      { body with forceAccum := body.forceAccum.add (g.scale (1 / body.inverseMass)) }
    else body

/-- Modelled from the spec: the linear part of `integrate(dt)` of §4.1, semi-implicit
Euler: `v += (Fnet * invMass) * dt`, `v *= damping^dt`, `p += v * dt`, then the
accumulated force is cleared.  There is no acceleration term besides the accumulated
force.  `dampingFactor` is the value of `damping^dt`, passed in because a real power of a
rational is not rational in general. -/
def RigidBody.integrate (body : RigidBody) (dt dampingFactor : ℚ) : RigidBody :=
  let v := body.linearVelocity.add ((body.forceAccum.scale body.inverseMass).scale dt)
  let v := v.scale dampingFactor
  let p := body.position.add (v.scale dt)
  { body with linearVelocity := v, position := p, forceAccum := Vector3.zero }

/-- Modelled from the spec: a registered generator acts on the body its registration
refers to; `f` is applied to the body with index `i`, if there is one. -/
def modifyBody (f : RigidBody → RigidBody) : List RigidBody → Nat → List RigidBody
  | [], _ => []
  | body :: rest, 0 => f body :: rest
  | body :: rest, i + 1 => body :: modifyBody f rest i

/-- Modelled from the spec: world-space position of the body a primitive refers to; by
§3 a primitive may refer to no body, it is then world geometry placed at the origin. -/
def bodyPosition (bodies : List RigidBody) : Option Nat → Option Vector3
  | none => some Vector3.zero
  | some i => (bodies[i]?).map (fun body => body.position)

/-- Modelled from the spec: the value `v` limited to the interval from `lo` to `hi`, used
for the point of a box closest to a given point. -/
def clamp (v lo hi : ℚ) : ℚ :=
  max lo (min v hi)

/-- Modelled from the spec: sphere–box narrow phase of §4.2 for a box whose axes are the
world axes: the sphere overlaps the box when the point of the box closest to the sphere's
centre is no further away than the radius. -/
def sphereBoxOverlap (centre : Vector3) (radius : ℚ) (boxCentre halfSize : Vector3) :
    Bool :=
  let rel := centre.sub boxCentre
  let closest : Vector3 :=
    ⟨clamp rel.x (-halfSize.x) halfSize.x, clamp rel.y (-halfSize.y) halfSize.y,
     clamp rel.z (-halfSize.z) halfSize.z⟩
  let d := rel.sub closest
  decide (d.dot d ≤ radius ^ 2)

/-- Modelled from the spec: sphere–plane narrow phase of §4.2 for a plane with unit
`normal` and `offset`: the penetration depth `radius - (normal . centre - offset)` is
not negative. -/
def spherePlaneOverlap (centre : Vector3) (radius : ℚ) (normal : Vector3) (offset : ℚ) :
    Bool :=
  decide (0 ≤ radius - (normal.dot centre - offset))

/-- Modelled from the spec: sphere–sphere narrow phase of §4.2. -/
def sphereSphereOverlap (c₁ : Vector3) (r₁ : ℚ) (c₂ : Vector3) (r₂ : ℚ) : Bool :=
  let d := c₁.sub c₂
  decide (d.dot d ≤ (r₁ + r₂) ^ 2)

/-- Modelled from the spec: the narrow-phase test of §4.2 for a pair of primitives,
telling whether the pair yields its (single) contact.  Pairs without a sphere
(box–box, box–plane, plane–plane) and dangling body references are outside the model:
`none`. -/
def overlap (bodies : List RigidBody) :
    CollisionPrimitive → CollisionPrimitive → Option Bool
  | CollisionPrimitive.sphere r₁ b₁, CollisionPrimitive.sphere r₂ b₂ => do
    let c₁ ← bodyPosition bodies b₁
    let c₂ ← bodyPosition bodies b₂
    some (sphereSphereOverlap c₁ r₁ c₂ r₂)
  | CollisionPrimitive.sphere r b, CollisionPrimitive.box h bb => do
    let c ← bodyPosition bodies b
    let bc ← bodyPosition bodies bb
    some (sphereBoxOverlap c r bc h)
  | CollisionPrimitive.box h bb, CollisionPrimitive.sphere r b => do
    let c ← bodyPosition bodies b
    let bc ← bodyPosition bodies bb
    some (sphereBoxOverlap c r bc h)
  | CollisionPrimitive.sphere r b, CollisionPrimitive.plane n off _ => do
    let c ← bodyPosition bodies b
    some (spherePlaneOverlap c r n off)
  | CollisionPrimitive.plane n off _, CollisionPrimitive.sphere r b => do
    let c ← bodyPosition bodies b
    some (spherePlaneOverlap c r n off)
  | _, _ => none

/-- Modelled from the spec: contacts of primitive `p` (index `i`) with the primitives
`qs` that follow it in the registry, the first of which has index `j`. -/
def contactsWith (bodies : List RigidBody) (i : Nat) (p : CollisionPrimitive) :
    List CollisionPrimitive → Nat → Option (List Contact)
  | [], _ => some []
  | q :: qs, j => do
    let hit ← overlap bodies p q
    let rest ← contactsWith bodies i p qs (j + 1)
    some (if hit then { first := i, second := j } :: rest else rest)

/-- Modelled from the spec: collision detection of §4.2 over every pair of primitives,
each pair yielding zero or one contact. -/
def detectContacts (bodies : List RigidBody) :
    List CollisionPrimitive → Nat → Option (List Contact)
  | [], _ => some []
  | p :: ps, i => do
    let here ← contactsWith bodies i p ps (i + 1)
    let later ← detectContacts bodies ps (i + 1)
    some (here ++ later)

/-- Modelled from the spec: steps (1)-(4) of the tick of §4.5 behind
`world.runPhysics(dt)`: clear the accumulators, apply the registered generators,
integrate, detect contacts (at most `maxContacts` of them are kept).  A `dt` that is not
positive is rejected (§6).  Contact resolution and the sleep state are not modelled, so
the result is meaningful up to the first tick that reports a contact. -/
def PhysicsWorld.runPhysics (world : PhysicsWorld) (bodies : List RigidBody)
    (dt dampingFactor : ℚ) : Option (List RigidBody × List Contact) :=
  if dt ≤ 0 then none
  else do
    let bodies := bodies.map RigidBody.clearAccumulators
    let bodies := world.registrations.foldl
      (fun bs registration => modifyBody registration.2.updateForce bs registration.1) bodies
    let bodies := bodies.map (fun body => body.integrate dt dampingFactor)
    let contacts ← detectContacts bodies world.primitives 0
    some (bodies, contacts.take world.maxContacts)

/-- Repeats `runPhysics` with step `dt`, as the loop of `runSimulation` does, while no
contact is reported.  The result is the number of the first tick that reports contacts
(ticks are counted from 1, tick `n` ends at time `n * dt`) together with these contacts;
`done` ticks have been run already and at most `fuel` more are tried (`none` when none
of them reports a contact). -/
def firstContact (world : PhysicsWorld) (dt dampingFactor : ℚ) :
    Nat → Nat → List RigidBody → Option (Nat × List Contact)
  | 0, _, _ => none
  | fuel + 1, done, bodies =>
    match world.runPhysics bodies dt dampingFactor with
    | none => none
    | some (bodies', []) => firstContact world dt dampingFactor fuel (done + 1) bodies'
    | some (_, c :: cs) => some (done + 1, c :: cs)

/-- The static ground body of `createGround` (line 38-40). -/
def groundBody : RigidBody :=
  { position := ⟨0, -1, 0⟩, linearVelocity := Vector3.zero, angularVelocity := Vector3.zero,
    forceAccum := Vector3.zero, inverseMass := 0, inverseInertiaTensor := ⟨0, 0, 0⟩ }

/-- The sphere body of `createTestObjects` (lines 52-56): mass 1, at height 5. -/
def sphereBody : RigidBody :=
  { position := ⟨0, 5, 0⟩, linearVelocity := ⟨2, 0, 0⟩, angularVelocity := Vector3.zero,
    forceAccum := Vector3.zero, inverseMass := 1, inverseInertiaTensor := ⟨10, 10, 10⟩ }

/-- The bodies of the falling-sphere scenario: ground first, sphere second. -/
def scenarioBodies : List RigidBody :=
  [groundBody, sphereBody]

/-- The world of the falling-sphere scenario for a given ground primitive: the ground,
the sphere of radius 1/2, gravity `(0, -9.81, 0)` registered for the sphere. -/
def scenarioWorld (ground : CollisionPrimitive) : PhysicsWorld :=
  { maxContacts := 100, iterations := 10, gravity := ⟨0, -981 / 100, 0⟩, damping := 1,
    primitives := [ground, CollisionPrimitive.sphere (1 / 2) (some 1)],
    registrations := [(1, ForceGenerator.gravity ⟨0, -981 / 100, 0⟩)] }

/-- The ground of the demo (lines 40-43): a box of half-size `(10, 0.5, 10)` on the
body at `(0, -1, 0)`, so that its top face is at `y = -0.5`. -/
def groundBox : CollisionPrimitive :=
  CollisionPrimitive.box ⟨10, 1 / 2, 10⟩ (some 0)

/-- The ground as the scenario of the specification words it: a plane at `y = -1`. -/
def groundPlane : CollisionPrimitive :=
  CollisionPrimitive.plane ⟨0, 1, 0⟩ (-1) none

/-- The bodies of the scenario with the sphere at position `p` moving at velocity `v`. -/
def scenarioState (p v : Vector3) : List RigidBody :=
  [groundBody, { sphereBody with position := p, linearVelocity := v }]

/-- Velocity of the sphere after one tick of `1/60` s from velocity `v`, as the
integration formula gives it for gravity `(0, -9.81, 0)`, mass 1 and damping factor
`k`. -/
def nextVelocity (v : Vector3) (k : ℚ) : Vector3 :=
  ⟨v.x * k, (v.y - 981 / 6000) * k, v.z * k⟩

/-- Position of the sphere after one tick of `1/60` s from position `p` and velocity
`v`: the new velocity is used for the position update. -/
def nextPosition (p v : Vector3) (k : ℚ) : Vector3 :=
  ⟨p.x + (nextVelocity v k).x / 60, p.y + (nextVelocity v k).y / 60,
   p.z + (nextVelocity v k).z / 60⟩

/-- Position of the sphere after `n` undamped ticks of `1/60` s, in closed form. -/
def undampedPosition (n : Nat) : Vector3 :=
  ⟨(n : ℚ) / 30, 5 - 981 / 720000 * ((n : ℚ) * ((n : ℚ) + 1)), 0⟩

/-- Velocity of the sphere after `n` undamped ticks of `1/60` s, in closed form. -/
def undampedVelocity (n : Nat) : Vector3 :=
  ⟨2, -(981 / 6000) * (n : ℚ), 0⟩

/-- Modelled from the spec: a default-constructed `RigidBody`, taken to be at rest at the
origin with no force, inverse mass and inverse inertia zero. -/
def restingBody : RigidBody :=
  { position := Vector3.zero, linearVelocity := Vector3.zero, angularVelocity := Vector3.zero,
    forceAccum := Vector3.zero, inverseMass := 0, inverseInertiaTensor := ⟨0, 0, 0⟩ }

/-- A finite value of the C++ type `float` (IEEE 754 binary32), held as the integer
number of units of `2^-149`, the spacing of the smallest binary32 values: every finite
binary32 value is such a multiple.  Infinities, NaN and the sign of zero are not
represented. -/
structure Float32 where
  units : Int
deriving DecidableEq, Repr

/-- The rational number a `Float32` stands for. -/
def Float32.toRat (x : Float32) : ℚ :=
  (x.units : ℚ) / 2 ^ 149

/-- Number of low-order bits `n` has beyond the 24 bits of a binary32 significand;
`fuel` bounds the number of halvings and `n` itself is always enough. -/
def excessBits : Nat → Nat → Nat
  | 0, _ => 0
  | fuel + 1, n => if n < 2 ^ 24 then 0 else excessBits fuel (n / 2) + 1

/-- Rounding of the non-negative rational `p / q` (a number of units of `2^-149`) to the
nearest binary32 magnitude, ties going to the even significand: the default rounding of
binary32 arithmetic.  Below `2^24` units the binary32 values are the whole numbers of
units, above they keep 24 significant bits. -/
def roundUnits (p q : Nat) : Nat :=
  let whole := p / q
  let e := excessBits whole whole
  let d := q * 2 ^ e
  let m := p / d
  let r := p % d
  if 2 * r < d then m * 2 ^ e
  else if d < 2 * r then (m + 1) * 2 ^ e
  else if m % 2 = 0 then m * 2 ^ e
  else (m + 1) * 2 ^ e

/-- The binary32 value nearest to the exact number of units `num / den`.  A zero
denominator and a result of magnitude `2^128` or more (an infinity) are outside the
model: `none`. -/
def Float32.ofExact (num : Int) (den : Nat) : Option Float32 :=
  if den = 0 then none
  else
    let m := roundUnits num.natAbs den
    if 2 ^ 128 * 2 ^ 149 ≤ m then none
    else some ⟨if num < 0 then -(m : Int) else (m : Int)⟩

/-- A literal such as `1.0f`, `60.0f` or `0.0f`: the binary32 value of a whole number. -/
def Float32.ofInt (n : Int) : Option Float32 :=
  Float32.ofExact (n * 2 ^ 149) 1

/-- The operator `+` on `float`: the exact sum, rounded. -/
def Float32.add (x y : Float32) : Option Float32 :=
  Float32.ofExact (x.units + y.units) 1

/-- The operator `-` on `float`: the exact difference, rounded. -/
def Float32.sub (x y : Float32) : Option Float32 :=
  Float32.ofExact (x.units - y.units) 1

/-- The operator `/` on `float`: the exact quotient, rounded; division by zero is `none`. -/
def Float32.div (x y : Float32) : Option Float32 :=
  if y.units < 0 then Float32.ofExact (-(x.units * 2 ^ 149)) y.units.natAbs
  else Float32.ofExact (x.units * 2 ^ 149) y.units.natAbs

/-- The conversion `static_cast<int>(x)`: the fractional part is discarded (rounding
toward zero).  A value outside the range of a 32-bit `int` is undefined behaviour:
`none`. -/
def Float32.toInt (x : Float32) : Option Int :=
  let n := Int.tdiv x.units (2 ^ 149)
  if -2147483648 ≤ n ∧ n ≤ 2147483647 then some n else none

/-- What `runSimulation` does that is visible from outside, in order. -/
inductive Event where
  | printRunning (duration : Float32)
  | runPhysics (dt : Float32)
  | printObjectStates
  | printComplete
deriving DecidableEq, Repr

/-- The condition of line 101,
`static_cast<int>(currentTime) != static_cast<int>(currentTime - timeStep)`. -/
def crossesSecond (currentTime timeStep : Float32) : Option Bool := do
  let now ← currentTime.toInt
  let earlier ← currentTime.sub timeStep
  let before ← earlier.toInt
  some (decide (now ≠ before))

/-- The `while` loop of `runSimulation` (lines 96-106), with `fuel` bounding the number
of condition checks; `none` when the fuel is used up before the loop exits. -/
def simulationLoop (duration timeStep : Float32) :
    Nat → Float32 → List Event → Option (List Event)
  | 0, _, _ => none
  | fuel + 1, currentTime, trace =>
    if currentTime.units < duration.units then
      match crossesSecond currentTime timeStep, currentTime.add timeStep with
      | some printNow, some next =>
        simulationLoop duration timeStep fuel next
          (trace ++ [Event.runPhysics timeStep] ++
            (if printNow then [Event.printObjectStates] else []))
      | _, _ => none
    else
      some trace

/-- The method `PhysicsExample::runSimulation` (lines 90-109). -/
def runSimulation (duration : Float32) (fuel : Nat) : Option (List Event) := do
  let one ← Float32.ofInt 1
  let sixty ← Float32.ofInt 60
  let timeStep ← one.div sixty
  let currentTime ← Float32.ofInt 0
  let trace ← simulationLoop duration timeStep fuel currentTime [Event.printRunning duration]
  some (trace ++ [Event.printComplete])

/-- The value of `1.0f / 60.0f`: `8947849 / 2^29`, a little more than `1/60`. -/
def timeStep32 : Float32 :=
  ⟨8947849 * 2 ^ 120⟩

/-- The value `5.0f`, the duration that `main` passes to `runSimulation`. -/
def fiveSeconds : Float32 :=
  ⟨5 * 2 ^ 149⟩

/-- The value `1.0f`. -/
def oneSecond : Float32 :=
  ⟨2 ^ 149⟩

/-- The values `currentTime` takes at the start of iterations 0 to 300, in units of
`2^-29`. -/
def timeTable : List Nat :=
  [0, 8947849, 17895698, 26843548, 35791396, 44739244, 53687092, 62634940, 71582792, 80530640,
   89478488, 98426336, 107374184, 116322032, 125269880, 134217728, 143165584, 152113440,
   161061296, 170009152, 178957008, 187904864, 196852720, 205800576, 214748432, 223696288,
   232644144, 241592000, 250539856, 259487712, 268435552, 277383392, 286331232, 295279072,
   304226912, 313174752, 322122592, 331070432, 340018272, 348966112, 357913952, 366861792,
   375809632, 384757472, 393705312, 402653152, 411600992, 420548832, 429496672, 438444512,
   447392352, 456340192, 465288032, 474235872, 483183712, 492131552, 501079392, 510027232,
   518975072, 527922912, 536870752, 545818624, 554766464, 563714304, 572662144, 581609984,
   590557824, 599505664, 608453504, 617401344, 626349184, 635297024, 644244864, 653192704,
   662140544, 671088384, 680036224, 688984064, 697931904, 706879744, 715827584, 724775424,
   733723264, 742671104, 751618944, 760566784, 769514624, 778462464, 787410304, 796358144,
   805305984, 814253824, 823201664, 832149504, 841097344, 850045184, 858993024, 867940864,
   876888704, 885836544, 894784384, 903732224, 912680064, 921627904, 930575744, 939523584,
   948471424, 957419264, 966367104, 975314944, 984262784, 993210624, 1002158464, 1011106304,
   1020054144, 1029001984, 1037949824, 1046897664, 1055845504, 1064793344, 1073741184,
   1082689024, 1091636864, 1100584704, 1109532544, 1118480384, 1127428224, 1136376064,
   1145323904, 1154271744, 1163219584, 1172167424, 1181115264, 1190063104, 1199010944,
   1207958784, 1216906624, 1225854464, 1234802304, 1243750144, 1252697984, 1261645824,
   1270593664, 1279541504, 1288489344, 1297437184, 1306385024, 1315332864, 1324280704,
   1333228544, 1342176384, 1351124224, 1360072064, 1369019904, 1377967744, 1386915584,
   1395863424, 1404811264, 1413759104, 1422706944, 1431654784, 1440602624, 1449550464,
   1458498304, 1467446144, 1476393984, 1485341824, 1494289664, 1503237504, 1512185344,
   1521133184, 1530081024, 1539028864, 1547976704, 1556924544, 1565872384, 1574820224,
   1583768064, 1592715904, 1601663744, 1610611584, 1619559424, 1628507264, 1637455104,
   1646402944, 1655350784, 1664298624, 1673246464, 1682194304, 1691142144, 1700089984,
   1709037824, 1717985664, 1726933504, 1735881344, 1744829184, 1753777024, 1762724864,
   1771672704, 1780620544, 1789568384, 1798516224, 1807464064, 1816411904, 1825359744,
   1834307584, 1843255424, 1852203264, 1861151104, 1870098944, 1879046784, 1887994624,
   1896942464, 1905890304, 1914838144, 1923785984, 1932733824, 1941681664, 1950629504,
   1959577344, 1968525184, 1977473024, 1986420864, 1995368704, 2004316544, 2013264384,
   2022212224, 2031160064, 2040107904, 2049055744, 2058003584, 2066951424, 2075899264,
   2084847104, 2093794944, 2102742784, 2111690624, 2120638464, 2129586304, 2138534144,
   2147481984, 2156429824, 2165377792, 2174325760, 2183273728, 2192221696, 2201169664,
   2210117632, 2219065600, 2228013568, 2236961536, 2245909504, 2254857472, 2263805440,
   2272753408, 2281701376, 2290649344, 2299597312, 2308545280, 2317493248, 2326441216,
   2335389184, 2344337152, 2353285120, 2362233088, 2371181056, 2380129024, 2389076992,
   2398024960, 2406972928, 2415920896, 2424868864, 2433816832, 2442764800, 2451712768,
   2460660736, 2469608704, 2478556672, 2487504640, 2496452608, 2505400576, 2514348544,
   2523296512, 2532244480, 2541192448, 2550140416, 2559088384, 2568036352, 2576984320,
   2585932288, 2594880256, 2603828224, 2612776192, 2621724160, 2630672128, 2639620096,
   2648568064, 2657516032, 2666464000, 2675411968, 2684359936]

/-- The value of `currentTime` at the start of iteration `k`, for `k` up to 300. -/
def timeAt (k : Nat) : Float32 :=
  ⟨(timeTable.getD k 0 : Nat) * 2 ^ 120⟩

/-- One step of the time table: from `a` (in units of `2^-29`) the addition of the
time step gives `b`, which is larger, and the condition of line 101 holds in iteration
`k` exactly when `k` is one more than a positive multiple of 60. -/
def rowOk (a b k : Nat) : Bool :=
  decide (Float32.add ⟨(a : Nat) * 2 ^ 120⟩ timeStep32 = some ⟨(b : Nat) * 2 ^ 120⟩) &&
  decide (a < b) &&
  decide (crossesSecond ⟨(a : Nat) * 2 ^ 120⟩ timeStep32 = some (decide (1 < k ∧ 60 ∣ k - 1)))

/-- Length of the initial run of table entries that are below `duration`. -/
def countBelow (duration : Float32) : List Nat → Nat
  | [] => 0
  | a :: rest =>
    if ((a : Nat) : Int) * 2 ^ 120 < duration.units then countBelow duration rest + 1 else 0

/-- Number of loop iterations of `runSimulation` for a duration of at most 5 seconds:
the number of `k` whose `currentTime` is below the duration. -/
def iterationCount (duration : Float32) : Nat :=
  countBelow duration timeTable

/-- Events of iteration `k`: one physics step, then the object states when `k` is one
more than a positive multiple of 60. -/
def iterationEvents (k : Nat) : List Event :=
  if 1 < k ∧ 60 ∣ k - 1 then [Event.runPhysics timeStep32, Event.printObjectStates]
  else [Event.runPhysics timeStep32]

/-- Events of iterations `k, k+1, ..., k+n-1`. -/
def iterationsFrom : Nat → Nat → List Event
  | _, 0 => []
  | k, n + 1 => iterationEvents k ++ iterationsFrom (k + 1) n

end PhysicsDemo

/-! ## Part II. Theorems -/

/-! ### Rock_Paper_Scissors.cpp -/

namespace RockPaperScissors

theorem computerChoice_cases (randValue : Nat) :
    computerChoice randValue = '0' ∨ computerChoice randValue = '1' ∨
      computerChoice randValue = '2' := by
  have h : randValue % 3 < 3 := Nat.mod_lt _ (by decide)
  unfold computerChoice
  interval_cases (randValue % 3)
  · left; decide
  · right; left; decide
  · right; right; decide

theorem ofChar_eq_some (c : Char) (m : Move) (h : Move.ofChar c = some m) :
    (c = '0' ∧ m = Move.rock) ∨ (c = '1' ∧ m = Move.paper) ∨ (c = '2' ∧ m = Move.scissors) := by
  unfold Move.ofChar at h
  split_ifs at h with h0 h1 h2 <;> simp_all

/-- C1: with 0 = Rock, 1 = Paper, 2 = Scissors, for every player choice and computer
choice among the characters 0, 1, 2 the program reports a tie iff the two moves are
equal, a player win iff the player's move beats the computer's under the standard
rules, a computer win in every remaining case, and the reported text is one of these
three (pairwise different) messages. -/
theorem verdict_outcome (player computer : Char) (pm cm : Move)
    (hp : Move.ofChar player = some pm) (hc : Move.ofChar computer = some cm) :
    (verdict player computer = "It's a tie!" ↔ pm = cm) ∧
    (verdict player computer = "You win!" ↔ pm.beats cm = true) ∧
    (verdict player computer = "Computer wins!" ↔ (pm ≠ cm ∧ pm.beats cm = false)) ∧
    verdict player computer ∈ ["It's a tie!", "You win!", "Computer wins!"] ∧
    (∀ randValue, computerChoice randValue = computer →
      main player randValue =
        [promptText, "Computer chose: " ++ String.singleton computer ++ "\n",
         verdict player computer ++ "\n"]) := by
  refine ⟨?_, ?_, ?_, ?_, ?_⟩
  · rcases ofChar_eq_some player pm hp with ⟨h1, h2⟩ | ⟨h1, h2⟩ | ⟨h1, h2⟩ <;>
      rcases ofChar_eq_some computer cm hc with ⟨h3, h4⟩ | ⟨h3, h4⟩ | ⟨h3, h4⟩ <;>
      subst h1 h2 h3 h4 <;> decide
  · rcases ofChar_eq_some player pm hp with ⟨h1, h2⟩ | ⟨h1, h2⟩ | ⟨h1, h2⟩ <;>
      rcases ofChar_eq_some computer cm hc with ⟨h3, h4⟩ | ⟨h3, h4⟩ | ⟨h3, h4⟩ <;>
      subst h1 h2 h3 h4 <;> decide
  · rcases ofChar_eq_some player pm hp with ⟨h1, h2⟩ | ⟨h1, h2⟩ | ⟨h1, h2⟩ <;>
      rcases ofChar_eq_some computer cm hc with ⟨h3, h4⟩ | ⟨h3, h4⟩ | ⟨h3, h4⟩ <;>
      subst h1 h2 h3 h4 <;> decide
  · rcases ofChar_eq_some player pm hp with ⟨h1, h2⟩ | ⟨h1, h2⟩ | ⟨h1, h2⟩ <;>
      rcases ofChar_eq_some computer cm hc with ⟨h3, h4⟩ | ⟨h3, h4⟩ | ⟨h3, h4⟩ <;>
      subst h1 h2 h3 h4 <;> decide
  · intro randValue h
    simp only [main, h]

/-- Witness for C1: the player enters `0` (Rock), the computer has `2`
(Scissors). -/
theorem verdict_outcome_witness :
    verdict '0' '2' = "You win!" ∧ Move.beats Move.rock Move.scissors = true :=
  have h := verdict_outcome '0' '2' Move.rock Move.scissors (by decide) (by decide)
  ⟨h.2.1.mpr (by decide), by decide⟩

/-- C2: for every entered character and every value returned by `rand()`, the computer's
choice is one of the characters 0, 1, 2, and the program reports "Invalid input!" exactly
when the player's character is none of them. -/
theorem invalid_input_iff (player : Char) (randValue : Nat) :
    computerChoice randValue ∈ ['0', '1', '2'] ∧
    (verdict player (computerChoice randValue) = "Invalid input!" ↔
      player ∉ ['0', '1', '2']) ∧
    (verdict player (computerChoice randValue) = "It's a tie!" → player ∈ ['0', '1', '2']) ∧
    main player randValue =
      [promptText,
       "Computer chose: " ++ String.singleton (computerChoice randValue) ++ "\n",
       verdict player (computerChoice randValue) ++ "\n"] := by
  have hc := computerChoice_cases randValue
  refine ⟨?_, ?_, ?_, rfl⟩
  · rcases hc with h | h | h <;> rw [h] <;> decide
  · by_cases h0 : player = '0'
    · subst h0
      rcases hc with h | h | h <;> rw [h] <;> decide
    by_cases h1 : player = '1'
    · subst h1
      rcases hc with h | h | h <;> rw [h] <;> decide
    by_cases h2 : player = '2'
    · subst h2
      rcases hc with h | h | h <;> rw [h] <;> decide
    have hn : player ∉ ['0', '1', '2'] := by simp [h0, h1, h2]
    rcases hc with h | h | h <;> rw [h] <;> simp [verdict, h0, h1, h2]
  · intro ht
    by_contra hn
    simp only [List.mem_cons, List.mem_singleton, List.not_mem_nil, or_false, not_or] at hn
    obtain ⟨h0, h1, h2⟩ := hn
    rcases hc with h | h | h <;> rw [h] at ht <;> simp [verdict, h0, h1, h2] at ht

end RockPaperScissors

/-! ### addressBook.cpp -/

namespace AddressBookProgram

theorem listContactsFrom_eq (contacts : List Contact) (remaining i : Nat) (io : Console)
    (h : i + remaining ≤ contacts.length) :
    listContactsFrom contacts i remaining io =
      some { cin := io.cin,
             cout := io.cout ++ ((contacts.drop i).take remaining).map Contact.render } := by
  induction remaining generalizing i io with
  | zero => simp [listContactsFrom]
  | succ r ih =>
    have hi : i < contacts.length := by omega
    rw [listContactsFrom, List.getElem?_eq_getElem hi]
    simp only
    rw [ih (i + 1) _ (by omega), List.drop_eq_getElem_cons hi]
    simp only [Console.print, List.take_succ_cons, List.map_cons, List.append_assoc,
      List.singleton_append]

theorem take_set_self (contacts : List Contact) (n : Nat) (c : Contact) :
    (contacts.set n c).take n = contacts.take n := by
  induction contacts generalizing n with
  | nil => simp
  | cons hd tl ih =>
    cases n with
    | zero => simp
    | succ k => simp [ih k]

theorem listContacts_eq (contacts : List Contact) (count : Int) (io : Console)
    (h : count.toNat ≤ contacts.length) :
    listContacts contacts count io =
      some { cin := io.cin,
             cout := io.cout ++ (contacts.take count.toNat).map Contact.render } := by
  unfold listContacts
  rw [listContactsFrom_eq contacts count.toNat 0 io (by omega)]
  simp

theorem shiftDown_length (remaining : Nat) :
    ∀ (contacts shifted : List Contact) (j : Nat),
      shiftDown contacts j remaining = some shifted → shifted.length = contacts.length := by
  induction remaining with
  | zero =>
    intro contacts shifted j h
    simp only [shiftDown, Option.some.injEq] at h
    rw [← h]
  | succ r ih =>
    intro contacts shifted j h
    rw [shiftDown] at h
    split at h
    · exact absurd h (by simp)
    · split_ifs at h
      have := ih _ _ _ h
      simpa using this

theorem deleteContactFrom_wellFormed (contacts : List Contact) (count : Int) (name : String)
    (io : Console) (hlen : contacts.length = 10) (hcount : count ≤ 10) (remaining : Nat) :
    ∀ (i : Nat) (contacts' : List Contact) (count' : Int) (io' : Console),
      (i : Int) + remaining = count → 0 ≤ count →
      deleteContactFrom contacts count name io i remaining = some (contacts', count', io') →
      contacts'.length = 10 ∧ 0 ≤ count' ∧ count' ≤ 10 := by
  induction remaining with
  | zero =>
    intro i contacts' count' io' _ h0 h
    simp only [deleteContactFrom, Option.some.injEq, Prod.mk.injEq] at h
    obtain ⟨h1, h2, _⟩ := h
    subst h1 h2
    exact ⟨hlen, h0, hcount⟩
  | succ r ih =>
    intro i contacts' count' io' hi h0 h
    rw [deleteContactFrom] at h
    split at h
    · exact absurd h (by simp)
    · split_ifs at h
      · split at h
        · exact absurd h (by simp)
        · rename_i shifted hs
          simp only [Option.some.injEq, Prod.mk.injEq] at h
          obtain ⟨h1, h2, _⟩ := h
          subst h1 h2
          refine ⟨by rw [shiftDown_length _ _ _ _ hs, hlen], ?_, ?_⟩ <;> push_cast at hi <;> omega
      · exact ih (i + 1) contacts' count' io' (by push_cast at hi ⊢; omega) h0 h

/-- The shape of the address book that `main` starts with (ten slots, `count = 0`) is
kept by `addContact` and by `deleteContact`: `count` stays between 0 and 10. -/
theorem wellFormed_invariant (book : AddressBook) (hwf : book.WellFormed) :
    (∀ slots : List Contact, slots.length = 10 →
      AddressBook.WellFormed { contacts := slots, count := 0 }) ∧
    (∀ (io io' : Console) (contacts' : List Contact) (count' : Int),
      addContact book.contacts book.count io = some (contacts', count', io') →
      AddressBook.WellFormed { contacts := contacts', count := count' }) ∧
    (∀ (name : String) (io io' : Console) (contacts' : List Contact) (count' : Int),
      deleteContact book.contacts book.count name io = some (contacts', count', io') →
      AddressBook.WellFormed { contacts := contacts', count := count' }) := by
  obtain ⟨hlen, h0, h10⟩ := hwf
  refine ⟨?_, ?_, ?_⟩
  · intro slots hs
    exact ⟨hs, le_refl _, by norm_num⟩
  · intro io io' contacts' count' h
    by_cases hfull : book.count ≥ 10
    · simp only [addContact, hfull, if_true, Option.some.injEq, Prod.mk.injEq] at h
      obtain ⟨h1, h2, _⟩ := h
      subst h1 h2
      exact ⟨hlen, h0, h10⟩
    · simp only [addContact, hfull, if_false] at h
      simp only [Option.bind_eq_bind, Option.bind_eq_some] at h
      obtain ⟨⟨name, io1⟩, _, ⟨phone, io2⟩, _, ⟨age, io3⟩, _, stored, hst, h⟩ := h
      simp only [Option.some.injEq, Prod.mk.injEq] at h
      obtain ⟨h1, h2, _⟩ := h
      subst h1 h2
      simp only [store] at hst
      split_ifs at hst
      simp only [Option.some.injEq] at hst
      subst hst
      refine ⟨by simpa using hlen, by show 0 ≤ book.count + 1; omega,
        by show book.count + 1 ≤ 10; omega⟩
  · intro name io io' contacts' count' h
    exact deleteContactFrom_wellFormed book.contacts book.count name io hlen h10
      book.count.toNat 0 contacts' count' io' (by simp; omega) h0 h

/-- C3: when `count` is 10 or more, `addContact` only prints "Address book is full.":
the count, every slot of the array and the pending input are left as they were. -/
theorem addContact_full (contacts : List Contact) (count : Int) (io : Console)
    (h : count ≥ 10) :
    addContact contacts count io =
      some (contacts, count,
        { cin := io.cin, cout := io.cout ++ ["Address book is full.\n"] }) := by
  simp [addContact, h, Console.print]

/-- C4: on an address book with fewer than 10 contacts, `addContact` reads the entered
contact, stores it at index `count`, adds one to `count`, keeps every slot below the
old `count`, and the listing afterwards is the old listing followed by the new
contact. -/
theorem addContact_stores (book : AddressBook) (io : Console)
    (name phone ageToken : String) (age : Int) (rest : List String)
    (hwf : book.WellFormed) (hlt : book.count < 10)
    (hin : io.cin = name :: phone :: ageToken :: rest)
    (hage : tokenValue ageToken = some age)
    (hint : -2147483648 ≤ age ∧ age ≤ 2147483647) :
    ∃ contacts' : List Contact,
      addContact book.contacts book.count io =
        some (contacts', book.count + 1,
          { cin := rest,
            cout := io.cout ++
              ["Enter name: ", "Enter phone: ", "Enter age: ", "Contact added. \n"] }) ∧
      contacts' = book.contacts.set book.count.toNat ⟨name, phone, age⟩ ∧
      contacts'.length = 10 ∧
      contacts'[book.count.toNat]? = some ⟨name, phone, age⟩ ∧
      (∀ i : Nat, i ≠ book.count.toNat → contacts'[i]? = book.contacts[i]?) ∧
      (∀ out : Console, ∃ listed : Console,
        listContacts book.contacts book.count out = some listed ∧
        listContacts contacts' (book.count + 1) out =
          some (listed.print (Contact.render ⟨name, phone, age⟩))) := by
  obtain ⟨hlen, h0, _⟩ := hwf
  have hn : book.count.toNat < book.contacts.length := by omega
  refine ⟨book.contacts.set book.count.toNat ⟨name, phone, age⟩, ?_, rfl, ?_, ?_, ?_, ?_⟩
  · have hnot : ¬ book.count ≥ 10 := by omega
    simp [addContact, hnot, Console.print, Console.readString, Console.readInt, hin, hage,
      hint, store, h0, hn]
  · simp [hlen]
  · simp [hn]
  · intro i hi
    rw [List.getElem?_set_ne (Ne.symm hi)]
  · intro out
    refine ⟨_, listContacts_eq book.contacts book.count out (by omega), ?_⟩
    rw [listContacts_eq _ _ _ (by simp; omega)]
    have h1 : (book.count + 1).toNat = book.count.toNat + 1 := by omega
    rw [h1, List.take_succ, take_set_self]
    simp [Console.print, hn]

/-- Witness for C3: a full book (count 10) and a console with input
waiting. -/
theorem addContact_full_witness :
    addContact sampleBook.contacts 10 sampleConsole =
      some (sampleBook.contacts, 10,
        { cin := sampleConsole.cin,
          cout := sampleConsole.cout ++ ["Address book is full.\n"] }) :=
  addContact_full sampleBook.contacts 10 sampleConsole (by decide)

/-- Witness for C4: the sample book with two contacts receives a third
one. -/
theorem addContact_stores_witness :
    sampleBook.WellFormed ∧ sampleBook.count < 10 ∧
    addContact sampleBook.contacts sampleBook.count sampleConsole =
      some (sampleBook.contacts.set 2 ⟨"Cleo", "555-0102", 27⟩, 3,
        { cin := [],
          cout := ["Enter name: ", "Enter phone: ", "Enter age: ", "Contact added. \n"] }) :=
  have hwf : sampleBook.WellFormed := by decide
  have h := addContact_stores sampleBook sampleConsole "Cleo" "555-0102" "27" 27 [] hwf
    (by decide) rfl (by decide) (by decide)
  ⟨hwf, by decide, by
    obtain ⟨contacts', h1, h2, _⟩ := h
    rw [h1, h2]
    rfl⟩

end AddressBookProgram

/-! ### 3DPhysicsEngine.cpp -/

namespace PhysicsDemo

theorem registerGravity_eq (gravity : ForceGenerator) (bodies : List RigidBody) :
    ∀ (index : Nat) (world : PhysicsWorld),
      registerGravity gravity bodies index world =
        { world with
          registrations := world.registrations ++
            (finiteMassIndices bodies index).map (fun i => (i, gravity)) } := by
  induction bodies with
  | nil => intro index world; simp [registerGravity, finiteMassIndices]
  | cons body rest ih =>
    intro index world
    by_cases h : body.hasFiniteMass = true
    · simp [registerGravity, finiteMassIndices, h, ih, PhysicsWorld.addForceGenerator]
    · simp [registerGravity, finiteMassIndices, h, ih]

theorem mem_finiteMassIndices (bodies : List RigidBody) :
    ∀ (index i : Nat), i ∈ finiteMassIndices bodies index ↔
      index ≤ i ∧ ∃ body, bodies[i - index]? = some body ∧ body.inverseMass ≠ 0 := by
  induction bodies with
  | nil => intro index i; simp [finiteMassIndices]
  | cons body rest ih =>
    intro index i
    have hstep : ∀ b : RigidBody, index + 1 ≤ i →
        ((body :: rest)[i - index]? = some b ↔ rest[i - (index + 1)]? = some b) := by
      intro b hle
      have e : i - index = (i - (index + 1)) + 1 := by omega
      rw [e, List.getElem?_cons_succ]
    by_cases h : body.hasFiniteMass = true
    · have hm : body.inverseMass ≠ 0 := by simpa [RigidBody.hasFiniteMass] using h
      rw [finiteMassIndices, if_pos h, List.mem_cons, ih]
      constructor
      · rintro (heq | ⟨hle, b, hb, hne⟩)
        · subst heq
          exact ⟨le_refl _, body, by simp, hm⟩
        · exact ⟨by omega, b, (hstep b hle).mpr hb, hne⟩
      · rintro ⟨hle, b, hb, hne⟩
        rcases Nat.eq_or_lt_of_le hle with heq | hlt
        · left; exact heq.symm
        · right; exact ⟨hlt, b, (hstep b hlt).mp hb, hne⟩
    · have hm : body.inverseMass = 0 := by simpa [RigidBody.hasFiniteMass] using h
      rw [finiteMassIndices, if_neg h, ih]
      constructor
      · rintro ⟨hle, b, hb, hne⟩
        exact ⟨by omega, b, (hstep b hle).mpr hb, hne⟩
      · rintro ⟨hle, b, hb, hne⟩
        rcases Nat.eq_or_lt_of_le hle with heq | hlt
        · subst heq
          simp at hb
          subst hb
          exact absurd hm hne
        · exact ⟨hlt, b, (hstep b hlt).mp hb, hne⟩

theorem finiteMassIndices_nodup (bodies : List RigidBody) :
    ∀ index : Nat, (finiteMassIndices bodies index).Nodup := by
  induction bodies with
  | nil => intro index; simp [finiteMassIndices]
  | cons body rest ih =>
    intro index
    by_cases h : body.hasFiniteMass = true
    · rw [finiteMassIndices, if_pos h, List.nodup_cons]
      refine ⟨?_, ih (index + 1)⟩
      intro hmem
      have := ((mem_finiteMassIndices rest (index + 1) index).mp hmem).1
      omega
    · rw [finiteMassIndices, if_neg h]
      exact ih (index + 1)

/-- C5: `setupForceGenerators` appends to the world's registrations one (body, gravity)
pair for each body of `bodies` that has finite mass (non-zero inverse mass) and for no
other body, leaving bodies and primitives as they are; in the demo built by the
constructor, whatever a default-constructed body looks like, the ground has inverse mass
0 and gravity is registered for exactly the sphere (body 1) and the box (body 2). -/
theorem setupForceGenerators_registers :
    (∀ ex : PhysicsExample, ∃ added : List (Nat × ForceGenerator),
      ex.setupForceGenerators.world.registrations = ex.world.registrations ++ added ∧
      added.Nodup ∧
      (∀ (i : Nat) (generator : ForceGenerator), (i, generator) ∈ added ↔
        (generator = ForceGenerator.gravity ⟨0, -981 / 100, 0⟩ ∧
          ∃ body, ex.bodies[i]? = some body ∧ body.inverseMass ≠ 0)) ∧
      (∀ (i : Nat) (body : RigidBody), ex.bodies[i]? = some body →
        (body.hasFiniteMass = true ↔ body.inverseMass ≠ 0)) ∧
      ex.setupForceGenerators.bodies = ex.bodies ∧
      ex.setupForceGenerators.primitives = ex.primitives) ∧
    (∀ fresh : RigidBody, ∃ demo : PhysicsExample,
      PhysicsExample.create fresh = some demo ∧
      demo.bodies.map (fun body => body.inverseMass) = [0, 1, 1 / 2] ∧
      demo.bodies.map (fun body => body.position) = [⟨0, -1, 0⟩, ⟨0, 5, 0⟩, ⟨3, 8, 0⟩] ∧
      demo.world.registrations =
        [(1, ForceGenerator.gravity ⟨0, -981 / 100, 0⟩),
         (2, ForceGenerator.gravity ⟨0, -981 / 100, 0⟩)]) := by
  constructor
  · intro ex
    refine ⟨(finiteMassIndices ex.bodies 0).map
      (fun i => (i, ForceGenerator.gravity ⟨0, -981 / 100, 0⟩)), ?_, ?_, ?_, ?_, rfl, rfl⟩
    · simp [PhysicsExample.setupForceGenerators, registerGravity_eq]
    · refine (finiteMassIndices_nodup ex.bodies 0).map ?_
      intro a b hab
      exact (Prod.mk.inj hab).1
    · intro i generator
      simp only [List.mem_map, Prod.mk.injEq]
      constructor
      · rintro ⟨j, hj, rfl, rfl⟩
        exact ⟨rfl, by simpa using ((mem_finiteMassIndices ex.bodies 0 j).mp hj).2⟩
      · rintro ⟨rfl, hb⟩
        exact ⟨i, (mem_finiteMassIndices ex.bodies 0 i).mpr ⟨Nat.zero_le _, by simpa using hb⟩,
          rfl, rfl⟩
    · intro i body _
      simp [RigidBody.hasFiniteMass]
  · intro fresh
    norm_num [PhysicsExample.create, PhysicsExample.createGround,
      PhysicsExample.createTestObjects, PhysicsExample.setupForceGenerators,
      RigidBody.calculateSphereInertiaTensor, RigidBody.calculateBoxInertiaTensor,
      RigidBody.setMass, RigidBody.setInertiaTensor,
      RigidBody.setInfiniteMass, RigidBody.setPosition, RigidBody.setLinearVelocity,
      RigidBody.setAngularVelocity, registerGravity, RigidBody.hasFiniteMass,
      PhysicsWorld.addForceGenerator, PhysicsWorld.addPrimitive, PhysicsWorld.create,
      PhysicsWorld.setGravity, PhysicsWorld.setDamping]

theorem runPhysics_scenario (ground : CollisionPrimitive) (p v : Vector3) (k : ℚ) :
    ∃ bodies',
      bodies' = scenarioState (nextPosition p v k) (nextVelocity v k) ∧
      (scenarioWorld ground).runPhysics (scenarioState p v) (1 / 60) k =
        (detectContacts bodies' [ground, CollisionPrimitive.sphere (1 / 2) (some 1)] 0).map
          (fun contacts => (bodies', contacts.take 100)) := by
  refine ⟨_, rfl, ?_⟩
  have hb : (List.map (fun body => body.integrate (1 / 60) k)
      (List.foldl
        (fun bs registration => modifyBody registration.2.updateForce bs registration.1)
        (List.map RigidBody.clearAccumulators (scenarioState p v))
        (scenarioWorld ground).registrations)) =
      scenarioState (nextPosition p v k) (nextVelocity v k) := by
    simp only [scenarioState, scenarioWorld, List.map, List.foldl, modifyBody,
      ForceGenerator.updateForce, RigidBody.clearAccumulators, RigidBody.hasFiniteMass,
      sphereBody, groundBody, RigidBody.integrate, Vector3.add, Vector3.scale, Vector3.zero,
      nextPosition, nextVelocity]
    norm_num
    refine ⟨⟨?_, ?_, ?_⟩, Or.inl ?_⟩ <;> ring
  unfold PhysicsWorld.runPhysics
  rw [if_neg (by norm_num)]
  simp only [hb]
  have hp : (scenarioWorld ground).primitives =
      [ground, CollisionPrimitive.sphere (1 / 2) (some 1)] := rfl
  have hm : (scenarioWorld ground).maxContacts = 100 := rfl
  rw [hp, hm]
  cases detectContacts (scenarioState (nextPosition p v k) (nextVelocity v k))
    [ground, CollisionPrimitive.sphere (1 / 2) (some 1)] 0 <;> rfl

theorem detectContacts_groundBox (p v : Vector3) :
    detectContacts (scenarioState p v) [groundBox, CollisionPrimitive.sphere (1 / 2) (some 1)] 0 =
      some (if sphereBoxOverlap p (1 / 2) ⟨0, -1, 0⟩ ⟨10, 1 / 2, 10⟩ then
        [{ first := 0, second := 1 }] else []) := by
  by_cases h : sphereBoxOverlap p (1 / 2) ⟨0, -1, 0⟩ ⟨10, 1 / 2, 10⟩ = true <;>
    simp [detectContacts, contactsWith, overlap, bodyPosition, scenarioState, groundBox,
      groundBody, h]

theorem detectContacts_groundPlane (p v : Vector3) :
    detectContacts (scenarioState p v)
        [groundPlane, CollisionPrimitive.sphere (1 / 2) (some 1)] 0 =
      some (if spherePlaneOverlap p (1 / 2) ⟨0, 1, 0⟩ (-1) then
        [{ first := 0, second := 1 }] else []) := by
  by_cases h : spherePlaneOverlap p (1 / 2) ⟨0, 1, 0⟩ (-1) = true <;>
    simp [detectContacts, contactsWith, overlap, bodyPosition, scenarioState, groundPlane, h]

theorem runPhysics_of_detect (ground : CollisionPrimitive) (hit : Vector3 → Bool)
    (hdet : ∀ p v : Vector3,
      detectContacts (scenarioState p v) [ground, CollisionPrimitive.sphere (1 / 2) (some 1)] 0 =
        some (if hit p then [{ first := 0, second := 1 }] else []))
    (p v : Vector3) (k : ℚ) :
    (scenarioWorld ground).runPhysics (scenarioState p v) (1 / 60) k =
      some (scenarioState (nextPosition p v k) (nextVelocity v k),
        if hit (nextPosition p v k) then [{ first := 0, second := 1 }] else []) := by
  obtain ⟨bodies', hb, hrun⟩ := runPhysics_scenario ground p v k
  rw [hrun, hb, hdet]
  by_cases h : hit (nextPosition p v k) = true <;> simp [h]

theorem sphereBoxOverlap_ground_le (p : Vector3)
    (h : sphereBoxOverlap p (1 / 2) ⟨0, -1, 0⟩ ⟨10, 1 / 2, 10⟩ = true) : p.y ≤ 0 := by
  by_contra hpos
  push_neg at hpos
  simp only [sphereBoxOverlap, Vector3.sub, Vector3.dot, clamp, decide_eq_true_eq] at h
  have hmin : min (p.y - -1) (1 / 2) = 1 / 2 := min_eq_right (by linarith)
  have hmax : max (-(1 / 2) : ℚ) (1 / 2) = 1 / 2 := max_eq_right (by norm_num)
  rw [hmin, hmax] at h
  nlinarith [mul_self_nonneg (p.x - 0 - max (-10) (min (p.x - 0) 10)),
    mul_self_nonneg (p.z - 0 - max (-10) (min (p.z - 0) 10))]

theorem spherePlaneOverlap_ground_iff (p : Vector3) :
    spherePlaneOverlap p (1 / 2) ⟨0, 1, 0⟩ (-1) = true ↔ p.y ≤ -(1 / 2) := by
  simp only [spherePlaneOverlap, Vector3.dot, decide_eq_true_eq]
  constructor <;> intro h <;> linarith

theorem undamped_next (n : Nat) :
    nextPosition (undampedPosition n) (undampedVelocity n) 1 = undampedPosition (n + 1) ∧
    nextVelocity (undampedVelocity n) 1 = undampedVelocity (n + 1) := by
  constructor
  · simp only [nextPosition, nextVelocity, undampedPosition, undampedVelocity,
      Vector3.mk.injEq]
    push_cast
    refine ⟨?_, ?_, ?_⟩ <;> ring
  · simp only [nextVelocity, undampedVelocity, Vector3.mk.injEq]
    push_cast
    refine ⟨?_, ?_, ?_⟩ <;> ring

theorem undampedPosition_y_pos (n : Nat) (h : n ≤ 60) : 0 < (undampedPosition n).y := by
  have h1 : (n : ℚ) ≤ 60 := by exact_mod_cast h
  have h0 : (0 : ℚ) ≤ n := by positivity
  simp only [undampedPosition]
  nlinarith

theorem firstContact_undamped (ground : CollisionPrimitive) (hit : Vector3 → Bool)
    (hdet : ∀ p v : Vector3,
      detectContacts (scenarioState p v) [ground, CollisionPrimitive.sphere (1 / 2) (some 1)] 0 =
        some (if hit p then [{ first := 0, second := 1 }] else []))
    (last : Nat) (hmiss : ∀ m : Nat, m ≤ last → hit (undampedPosition m) = false)
    (hhit : hit (undampedPosition (last + 1)) = true) (remaining : Nat) :
    ∀ (done fuel : Nat), done + remaining = last → remaining < fuel →
      firstContact (scenarioWorld ground) (1 / 60) 1 fuel done
          (scenarioState (undampedPosition done) (undampedVelocity done)) =
        some (last + 1, [{ first := 0, second := 1 }]) := by
  induction remaining with
  | zero =>
    intro done fuel hd hf
    obtain ⟨f, rfl⟩ : ∃ f, fuel = f + 1 := ⟨fuel - 1, by omega⟩
    have hd' : done = last := by omega
    subst hd'
    rw [firstContact, runPhysics_of_detect ground hit hdet, (undamped_next done).1,
      (undamped_next done).2, hhit]
    rfl
  | succ r ih =>
    intro done fuel hd hf
    obtain ⟨f, rfl⟩ : ∃ f, fuel = f + 1 := ⟨fuel - 1, by omega⟩
    rw [firstContact, runPhysics_of_detect ground hit hdet, (undamped_next done).1,
      (undamped_next done).2, hmiss (done + 1) (by omega)]
    exact ih (done + 1) f (by omega) (by omega)

theorem firstContact_undamped_none (ground : CollisionPrimitive) (hit : Vector3 → Bool)
    (hdet : ∀ p v : Vector3,
      detectContacts (scenarioState p v) [ground, CollisionPrimitive.sphere (1 / 2) (some 1)] 0 =
        some (if hit p then [{ first := 0, second := 1 }] else []))
    (last : Nat) (hmiss : ∀ m : Nat, m ≤ last → hit (undampedPosition m) = false)
    (fuel : Nat) :
    ∀ done : Nat, done + fuel ≤ last →
      firstContact (scenarioWorld ground) (1 / 60) 1 fuel done
          (scenarioState (undampedPosition done) (undampedVelocity done)) = none := by
  induction fuel with
  | zero =>
    intro done _
    rfl
  | succ f ih =>
    intro done hd
    rw [firstContact, runPhysics_of_detect ground hit hdet, (undamped_next done).1,
      (undamped_next done).2, hmiss (done + 1) (by omega)]
    exact ih (done + 1) (by omega)

theorem firstContact_damped_late (ground : CollisionPrimitive) (hit : Vector3 → Bool)
    (hdet : ∀ p v : Vector3,
      detectContacts (scenarioState p v) [ground, CollisionPrimitive.sphere (1 / 2) (some 1)] 0 =
        some (if hit p then [{ first := 0, second := 1 }] else []))
    (hlow : ∀ p : Vector3, hit p = true → p.y ≤ 0) (k : ℚ) (hk0 : 0 ≤ k) (hk1 : k ≤ 1)
    (fuel : Nat) :
    ∀ (done : Nat) (p v : Vector3), v.y ≤ 0 → -(981 / 6000) * (done : ℚ) ≤ v.y →
      5 - 981 / 720000 * ((done : ℚ) * ((done : ℚ) + 1)) ≤ p.y →
      ∀ (tick : Nat) (contacts : List Contact),
        firstContact (scenarioWorld ground) (1 / 60) k fuel done (scenarioState p v) =
          some (tick, contacts) → 61 ≤ tick := by
  induction fuel with
  | zero =>
    intro done p v _ _ _ tick contacts h
    simp [firstContact] at h
  | succ f ih =>
    intro done p v hv0 hv hp tick contacts h
    have hvy : (nextVelocity v k).y ≤ 0 := by
      simp only [nextVelocity]
      exact mul_nonpos_of_nonpos_of_nonneg (by linarith) hk0
    have hvl : -(981 / 6000) * ((done + 1 : Nat) : ℚ) ≤ (nextVelocity v k).y := by
      simp only [nextVelocity]
      push_cast
      nlinarith [mul_nonneg (sub_nonneg.mpr hk1) (by linarith : (0 : ℚ) ≤ -(v.y - 981 / 6000))]
    have hpy : 5 - 981 / 720000 * (((done + 1 : Nat) : ℚ) * (((done + 1 : Nat) : ℚ) + 1)) ≤
        (nextPosition p v k).y := by
      have e : (nextPosition p v k).y = p.y + (nextVelocity v k).y / 60 := rfl
      rw [e]
      push_cast at hvl ⊢
      linarith
    rw [firstContact, runPhysics_of_detect ground hit hdet] at h
    by_cases hh : hit (nextPosition p v k) = true
    · rw [hh] at h
      simp only [if_true, Option.some.injEq, Prod.mk.injEq] at h
      have hy := hlow _ hh
      by_contra hlt
      have hd : done + 1 ≤ 60 := by omega
      have hpos := undampedPosition_y_pos (done + 1) hd
      simp only [undampedPosition] at hpos
      linarith
    · simp only [hh] at h
      exact ih (done + 1) _ _ hvy hvl hpy tick contacts h

theorem scenarioBodies_eq :
    scenarioBodies = scenarioState (undampedPosition 0) (undampedVelocity 0) := by
  simp [scenarioBodies, scenarioState, undampedPosition, undampedVelocity, sphereBody]

theorem hit_groundBox_61 :
    sphereBoxOverlap (undampedPosition 61) (1 / 2) ⟨0, -1, 0⟩ ⟨10, 1 / 2, 10⟩ = true := by
  simp only [sphereBoxOverlap, undampedPosition, Vector3.sub, Vector3.dot, clamp,
    decide_eq_true_eq]
  have h1 : min ((((61 : Nat) : ℚ)) / 30 - 0) 10 = ((61 : Nat) : ℚ) / 30 - 0 :=
    min_eq_left (by norm_num)
  have h2 : max (-10 : ℚ) ((((61 : Nat) : ℚ)) / 30 - 0) = ((61 : Nat) : ℚ) / 30 - 0 :=
    max_eq_right (by norm_num)
  have h3 : min (5 - 981 / 720000 * ((((61 : Nat) : ℚ)) * ((((61 : Nat) : ℚ)) + 1)) - -1)
      (1 / 2 : ℚ) = 1 / 2 := min_eq_right (by norm_num)
  have h4 : max (-(1 / 2) : ℚ) (1 / 2) = 1 / 2 := max_eq_right (by norm_num)
  have h5 : min ((0 : ℚ) - 0) 10 = 0 - 0 := min_eq_left (by norm_num)
  have h6 : max (-10 : ℚ) (0 - 0) = 0 - 0 := max_eq_right (by norm_num)
  rw [h1, h2, h3, h4, h5, h6]
  norm_num

theorem miss_groundBox (m : Nat) (h : m ≤ 60) :
    sphereBoxOverlap (undampedPosition m) (1 / 2) ⟨0, -1, 0⟩ ⟨10, 1 / 2, 10⟩ = false := by
  by_contra hne
  have ht := sphereBoxOverlap_ground_le (undampedPosition m) (by simpa using hne)
  have hpos := undampedPosition_y_pos m h
  linarith

theorem hit_groundPlane_64 :
    spherePlaneOverlap (undampedPosition 64) (1 / 2) ⟨0, 1, 0⟩ (-1) = true := by
  rw [spherePlaneOverlap_ground_iff]
  norm_num [undampedPosition]

theorem miss_groundPlane (m : Nat) (h : m ≤ 63) :
    spherePlaneOverlap (undampedPosition m) (1 / 2) ⟨0, 1, 0⟩ (-1) = false := by
  by_contra hne
  have ht := (spherePlaneOverlap_ground_iff (undampedPosition m)).mp (by simpa using hne)
  have h1 : (m : ℚ) ≤ 63 := by exact_mod_cast h
  have h0 : (0 : ℚ) ≤ m := by positivity
  simp only [undampedPosition] at ht
  nlinarith

theorem firstContact_late (ground : CollisionPrimitive)
    (hg : ground = groundBox ∨ ground = groundPlane) (k : ℚ) (hk0 : 0 ≤ k) (hk1 : k ≤ 1)
    (fuel tick : Nat) (contacts : List Contact)
    (h : firstContact (scenarioWorld ground) (1 / 60) k fuel 0 scenarioBodies =
      some (tick, contacts)) : 61 ≤ tick := by
  have hv0 : (undampedVelocity 0).y ≤ 0 := by simp [undampedVelocity]
  have hv : -(981 / 6000) * ((0 : Nat) : ℚ) ≤ (undampedVelocity 0).y := by
    simp [undampedVelocity]
  have hp : 5 - 981 / 720000 * (((0 : Nat) : ℚ) * (((0 : Nat) : ℚ) + 1)) ≤
      (undampedPosition 0).y := by
    simp [undampedPosition]
  rw [scenarioBodies_eq] at h
  rcases hg with rfl | rfl
  · exact firstContact_damped_late groundBox _ detectContacts_groundBox
      sphereBoxOverlap_ground_le k hk0 hk1 fuel 0 _ _ hv0 hv hp tick contacts h
  · refine firstContact_damped_late groundPlane _ detectContacts_groundPlane
      ?_ k hk0 hk1 fuel 0 _ _ hv0 hv hp tick contacts h
    intro p hp'
    have := (spherePlaneOverlap_ground_iff p).mp hp'
    linarith

/-- C6, as stated, fails: in the falling-sphere scenario stepped at 1/60 s without
damping, 59 ticks (until `t = 0.983 s`) pass without any contact, against the demo's
ground box as well as against a plane at `y = -1`; and whatever the damping factor
between 0 and 1, no tick that ends within a quarter of a second of `t = 0.74 s` is the
first to report a contact. -/
theorem first_contact_not_near_074 :
    firstContact (scenarioWorld groundBox) (1 / 60) 1 59 0 scenarioBodies = none ∧
    firstContact (scenarioWorld groundPlane) (1 / 60) 1 59 0 scenarioBodies = none ∧
    ¬ ∃ (ground : CollisionPrimitive) (k : ℚ) (fuel tick : Nat) (contacts : List Contact),
      (ground = groundBox ∨ ground = groundPlane) ∧ 0 ≤ k ∧ k ≤ 1 ∧
      |(tick : ℚ) / 60 - 74 / 100| ≤ 1 / 4 ∧
      firstContact (scenarioWorld ground) (1 / 60) k fuel 0 scenarioBodies =
        some (tick, contacts) := by
  refine ⟨?_, ?_, ?_⟩
  · rw [scenarioBodies_eq]
    exact firstContact_undamped_none groundBox _ detectContacts_groundBox 60 miss_groundBox
      59 0 (by omega)
  · rw [scenarioBodies_eq]
    exact firstContact_undamped_none groundPlane _ detectContacts_groundPlane 63
      miss_groundPlane 59 0 (by omega)
  · rintro ⟨ground, k, fuel, tick, contacts, hg, hk0, hk1, habs, h⟩
    have h61 := firstContact_late ground hg k hk0 hk1 fuel tick contacts h
    have h61' : (61 : ℚ) ≤ tick := by exact_mod_cast h61
    have := (abs_le.mp habs).2
    linarith

/-- C6, amended: in the falling-sphere scenario (sphere of mass 1 and radius 0.5 at
`(0, 5, 0)`, static ground, gravity `(0, -9.81, 0)`, ticks of 1/60 s, semi-implicit
Euler in exact arithmetic) the undamped sphere falls without contact for 60 ticks and
tick 61 (`t = 61/60 s`) reports exactly one contact with the demo's ground box; with a
plane at `y = -1` instead this happens in tick 64; for every damping factor between 0
and 1 no contact is reported during the first 60 ticks.  The scenario bodies and
primitives are the first two of the demo that the constructor builds. -/
theorem falling_sphere_first_contact :
    (∀ fuel : Nat, 61 ≤ fuel →
      firstContact (scenarioWorld groundBox) (1 / 60) 1 fuel 0 scenarioBodies =
        some (61, [{ first := 0, second := 1 }])) ∧
    (∀ fuel : Nat, 64 ≤ fuel →
      firstContact (scenarioWorld groundPlane) (1 / 60) 1 fuel 0 scenarioBodies =
        some (64, [{ first := 0, second := 1 }])) ∧
    (∀ (ground : CollisionPrimitive) (k : ℚ) (fuel tick : Nat) (contacts : List Contact),
      (ground = groundBox ∨ ground = groundPlane) → 0 ≤ k → k ≤ 1 →
      firstContact (scenarioWorld ground) (1 / 60) k fuel 0 scenarioBodies =
        some (tick, contacts) → 61 ≤ tick) ∧
    (∃ demo : PhysicsExample, PhysicsExample.create restingBody = some demo ∧
      demo.bodies.take 2 = scenarioBodies ∧
      demo.world.primitives.take 2 = (scenarioWorld groundBox).primitives ∧
      demo.world.gravity = (scenarioWorld groundBox).gravity) := by
  refine ⟨?_, ?_, ?_, ?_⟩
  · intro fuel hf
    rw [scenarioBodies_eq]
    exact firstContact_undamped groundBox _ detectContacts_groundBox 60 miss_groundBox
      hit_groundBox_61 60 0 fuel (by omega) (by omega)
  · intro fuel hf
    rw [scenarioBodies_eq]
    exact firstContact_undamped groundPlane _ detectContacts_groundPlane 63 miss_groundPlane
      hit_groundPlane_64 63 0 fuel (by omega) (by omega)
  · intro ground k fuel tick contacts hg hk0 hk1 h
    exact firstContact_late ground hg k hk0 hk1 fuel tick contacts h
  · norm_num [PhysicsExample.create, PhysicsExample.createGround,
      PhysicsExample.createTestObjects, PhysicsExample.setupForceGenerators,
      RigidBody.calculateSphereInertiaTensor, RigidBody.calculateBoxInertiaTensor,
      RigidBody.setMass, RigidBody.setInertiaTensor,
      RigidBody.setInfiniteMass, RigidBody.setPosition, RigidBody.setLinearVelocity,
      RigidBody.setAngularVelocity, registerGravity, RigidBody.hasFiniteMass,
      PhysicsWorld.addForceGenerator, PhysicsWorld.addPrimitive, PhysicsWorld.create,
      PhysicsWorld.setGravity, PhysicsWorld.setDamping, restingBody, scenarioBodies,
      groundBody, sphereBody, scenarioWorld, groundBox, Vector3.zero]

theorem table_rows_0 : ∀ j < 25,
    rowOk (timeTable.getD (0 + j) 0) (timeTable.getD (0 + j + 1) 0) (0 + j) = true := by
  decide!

theorem table_rows_25 : ∀ j < 25,
    rowOk (timeTable.getD (25 + j) 0) (timeTable.getD (25 + j + 1) 0) (25 + j) = true := by
  decide!

theorem table_rows_50 : ∀ j < 25,
    rowOk (timeTable.getD (50 + j) 0) (timeTable.getD (50 + j + 1) 0) (50 + j) = true := by
  decide!

theorem table_rows_75 : ∀ j < 25,
    rowOk (timeTable.getD (75 + j) 0) (timeTable.getD (75 + j + 1) 0) (75 + j) = true := by
  decide!

theorem table_rows_100 : ∀ j < 25,
    rowOk (timeTable.getD (100 + j) 0) (timeTable.getD (100 + j + 1) 0) (100 + j) = true := by
  decide!

theorem table_rows_125 : ∀ j < 25,
    rowOk (timeTable.getD (125 + j) 0) (timeTable.getD (125 + j + 1) 0) (125 + j) = true := by
  decide!

theorem table_rows_150 : ∀ j < 25,
    rowOk (timeTable.getD (150 + j) 0) (timeTable.getD (150 + j + 1) 0) (150 + j) = true := by
  decide!

theorem table_rows_175 : ∀ j < 25,
    rowOk (timeTable.getD (175 + j) 0) (timeTable.getD (175 + j + 1) 0) (175 + j) = true := by
  decide!

theorem table_rows_200 : ∀ j < 25,
    rowOk (timeTable.getD (200 + j) 0) (timeTable.getD (200 + j + 1) 0) (200 + j) = true := by
  decide!

theorem table_rows_225 : ∀ j < 25,
    rowOk (timeTable.getD (225 + j) 0) (timeTable.getD (225 + j + 1) 0) (225 + j) = true := by
  decide!

theorem table_rows_250 : ∀ j < 25,
    rowOk (timeTable.getD (250 + j) 0) (timeTable.getD (250 + j + 1) 0) (250 + j) = true := by
  decide!

theorem table_rows_275 : ∀ j < 25,
    rowOk (timeTable.getD (275 + j) 0) (timeTable.getD (275 + j + 1) 0) (275 + j) = true := by
  decide!

theorem table_row (k : Nat) (h : k < 300) :
    rowOk (timeTable.getD k 0) (timeTable.getD (k + 1) 0) k = true := by
  have hq : k / 25 < 12 := by omega
  have hk : k = 25 * (k / 25) + k % 25 := by omega
  have hr : k % 25 < 25 := by omega
  generalize k / 25 = q at hq hk
  generalize k % 25 = r at hk hr
  subst hk
  interval_cases q
  · simpa using table_rows_0 r hr
  · exact table_rows_25 r hr
  · exact table_rows_50 r hr
  · exact table_rows_75 r hr
  · exact table_rows_100 r hr
  · exact table_rows_125 r hr
  · exact table_rows_150 r hr
  · exact table_rows_175 r hr
  · exact table_rows_200 r hr
  · exact table_rows_225 r hr
  · exact table_rows_250 r hr
  · exact table_rows_275 r hr

theorem timeAt_add (k : Nat) (h : k < 300) :
    (timeAt k).add timeStep32 = some (timeAt (k + 1)) := by
  have := table_row k h
  simp only [rowOk, Bool.and_eq_true, decide_eq_true_eq] at this
  exact this.1.1

theorem timeTable_lt (k : Nat) (h : k < 300) :
    timeTable.getD k 0 < timeTable.getD (k + 1) 0 := by
  have := table_row k h
  simp only [rowOk, Bool.and_eq_true, decide_eq_true_eq] at this
  exact this.1.2

theorem timeAt_crosses (k : Nat) (h : k < 300) :
    crossesSecond (timeAt k) timeStep32 = some (decide (1 < k ∧ 60 ∣ k - 1)) := by
  have := table_row k h
  simp only [rowOk, Bool.and_eq_true, decide_eq_true_eq] at this
  exact this.2

theorem timeTable_mono (j k : Nat) (hjk : j ≤ k) (hk : k ≤ 300) :
    timeTable.getD j 0 ≤ timeTable.getD k 0 := by
  induction k with
  | zero =>
    have : j = 0 := by omega
    subst this
    exact le_refl _
  | succ n ih =>
    rcases Nat.eq_or_lt_of_le hjk with heq | hlt
    · subst heq
      exact le_refl _
    · exact le_trans (ih (by omega) (by omega)) (le_of_lt (timeTable_lt n (by omega)))

theorem countBelow_lt (duration : Float32) (l : List Nat) :
    ∀ j : Nat, j < countBelow duration l →
      ((l.getD j 0 : Nat) : Int) * 2 ^ 120 < duration.units := by
  induction l with
  | nil => intro j hj; simp [countBelow] at hj
  | cons a rest ih =>
    intro j hj
    by_cases ha : ((a : Nat) : Int) * 2 ^ 120 < duration.units
    · rw [countBelow, if_pos ha] at hj
      cases j with
      | zero => exact ha
      | succ i => exact ih i (by omega)
    · rw [countBelow, if_neg ha] at hj
      omega

theorem countBelow_stop (duration : Float32) (l : List Nat) :
    countBelow duration l ≤ l.length ∧
    (countBelow duration l < l.length →
      ¬ ((l.getD (countBelow duration l) 0 : Nat) : Int) * 2 ^ 120 < duration.units) := by
  induction l with
  | nil => simp [countBelow]
  | cons a rest ih =>
    by_cases ha : ((a : Nat) : Int) * 2 ^ 120 < duration.units
    · rw [countBelow, if_pos ha]
      refine ⟨Nat.succ_le_succ ih.1, ?_⟩
      intro hlt
      exact ih.2 (Nat.lt_of_succ_lt_succ hlt)
    · rw [countBelow, if_neg ha]
      exact ⟨Nat.zero_le _, fun _ => ha⟩

theorem iterationCount_le (duration : Float32) (h5 : duration.units ≤ fiveSeconds.units) :
    iterationCount duration ≤ 300 := by
  by_contra hgt
  have h300 := countBelow_lt duration timeTable 300 (Nat.lt_of_not_le hgt)
  have hval : fiveSeconds.units ≤ ((timeTable.getD 300 0 : Nat) : Int) * 2 ^ 120 := by
    decide!
  exact absurd (lt_of_lt_of_le h300 h5) (not_lt.mpr hval)

theorem lt_iterationCount_iff (duration : Float32) (h5 : duration.units ≤ fiveSeconds.units)
    (k : Nat) (hk : k ≤ 300) :
    k < iterationCount duration ↔ (timeAt k).units < duration.units := by
  constructor
  · intro h
    exact countBelow_lt duration timeTable k h
  · intro h
    by_contra hge
    have hN : countBelow duration timeTable ≤ 300 := iterationCount_le duration h5
    have hlen : timeTable.length = 301 := by decide!
    have hstop := (countBelow_stop duration timeTable).2 (by rw [hlen]; omega)
    have hge' : countBelow duration timeTable ≤ k := Nat.le_of_not_lt hge
    have hmono := timeTable_mono (countBelow duration timeTable) k hge' hk
    apply hstop
    have hcast : ((timeTable.getD (countBelow duration timeTable) 0 : Nat) : Int) ≤
        ((timeTable.getD k 0 : Nat) : Int) := by exact_mod_cast hmono
    have hpow : (0 : Int) ≤ 2 ^ 120 := by positivity
    exact lt_of_le_of_lt (mul_le_mul_of_nonneg_right hcast hpow) h

theorem simulationLoop_eq (duration : Float32) (h5 : duration.units ≤ fiveSeconds.units)
    (n : Nat) :
    ∀ (k fuel : Nat) (trace : List Event), k + n = iterationCount duration → n < fuel →
      simulationLoop duration timeStep32 fuel (timeAt k) trace =
        some (trace ++ iterationsFrom k n) := by
  have hN := iterationCount_le duration h5
  induction n with
  | zero =>
    intro k fuel trace hk hfuel
    obtain ⟨f, rfl⟩ : ∃ f, fuel = f + 1 := ⟨fuel - 1, by omega⟩
    have hk300 : k ≤ 300 := by omega
    have hnot : ¬ ((timeAt k).units < duration.units) := by
      rw [← lt_iterationCount_iff duration h5 k hk300]; omega
    rw [simulationLoop, if_neg hnot, iterationsFrom, List.append_nil]
  | succ n ih =>
    intro k fuel trace hk hfuel
    obtain ⟨f, rfl⟩ : ∃ f, fuel = f + 1 := ⟨fuel - 1, by omega⟩
    have hk300 : k < 300 := by omega
    have hlt : (timeAt k).units < duration.units := by
      rw [← lt_iterationCount_iff duration h5 k (le_of_lt hk300)]; omega
    have hnext : k + 1 + n = iterationCount duration := by omega
    have hf : n < f := by omega
    rw [simulationLoop, if_pos hlt, timeAt_crosses k hk300, timeAt_add k hk300]
    simp only
    rw [ih (k + 1) f _ hnext hf, iterationsFrom]
    by_cases hc : 1 < k ∧ 60 ∣ k - 1
    · rw [iterationEvents, if_pos hc, decide_eq_true hc]
      simp only [if_true, List.append_assoc, List.cons_append, List.nil_append]
    · rw [iterationEvents, if_neg hc, decide_eq_false hc]
      simp only [Bool.false_eq_true, if_false, List.append_assoc, List.cons_append,
        List.nil_append, List.append_nil]

theorem runSimulation_eq (duration : Float32) (fuel : Nat)
    (h5 : duration.units ≤ fiveSeconds.units) (hfuel : iterationCount duration < fuel) :
    runSimulation duration fuel =
      some ([Event.printRunning duration] ++ iterationsFrom 0 (iterationCount duration) ++
        [Event.printComplete]) := by
  have h1 : Float32.ofInt 1 = some ⟨2 ^ 149⟩ := by decide!
  have h60 : Float32.ofInt 60 = some ⟨60 * 2 ^ 149⟩ := by decide!
  have h0 : Float32.ofInt 0 = some (timeAt 0) := by decide!
  have hdiv : Float32.div ⟨2 ^ 149⟩ ⟨60 * 2 ^ 149⟩ = some timeStep32 := by decide!
  have h := simulationLoop_eq duration h5 (iterationCount duration) 0 fuel
    [Event.printRunning duration] (by omega) hfuel
  unfold runSimulation
  simp only [h1, h60, h0, hdiv, h, Option.bind_eq_bind, Option.some_bind, List.append_assoc]

/-- C7, as stated, fails: `1.0f / 60.0f` is larger than `1/60` and 60 additions of it
give a `currentTime` below 1, so `runSimulation(1.0f)` runs 61 iterations, not the 60
with `k / 60 < 1`; and `runSimulation(5.0f)`, the call in `main`, prints the object
states after the physics step of iterations 61, 121, 181 and 241 (the 62nd, 122nd, 182nd
and 242nd step), not in iterations 60, 120, 180 and 240. -/
theorem runSimulation_cadence_shifted :
    runSimulation oneSecond 62 =
      some ([Event.printRunning oneSecond] ++
        List.replicate 61 (Event.runPhysics timeStep32) ++ [Event.printComplete]) ∧
    runSimulation fiveSeconds 301 =
      some ([Event.printRunning fiveSeconds] ++
        List.replicate 62 (Event.runPhysics timeStep32) ++ [Event.printObjectStates] ++
        List.replicate 60 (Event.runPhysics timeStep32) ++ [Event.printObjectStates] ++
        List.replicate 60 (Event.runPhysics timeStep32) ++ [Event.printObjectStates] ++
        List.replicate 60 (Event.runPhysics timeStep32) ++ [Event.printObjectStates] ++
        List.replicate 58 (Event.runPhysics timeStep32) ++ [Event.printComplete]) ∧
    (1 : ℚ) / 60 < timeStep32.toRat ∧ (timeAt 60).toRat < 1 ∧ ¬ ((60 : ℚ) / 60 < 1) := by
  have c1 : iterationCount oneSecond = 61 := by decide!
  have c5 : iterationCount fiveSeconds = 300 := by decide!
  have e1 : iterationsFrom 0 61 = List.replicate 61 (Event.runPhysics timeStep32) := by
    decide!
  have e5 : iterationsFrom 0 300 =
      List.replicate 62 (Event.runPhysics timeStep32) ++ [Event.printObjectStates] ++
      List.replicate 60 (Event.runPhysics timeStep32) ++ [Event.printObjectStates] ++
      List.replicate 60 (Event.runPhysics timeStep32) ++ [Event.printObjectStates] ++
      List.replicate 60 (Event.runPhysics timeStep32) ++ [Event.printObjectStates] ++
      List.replicate 58 (Event.runPhysics timeStep32) := by
    decide!
  refine ⟨?_, ?_, ?_, ?_, ?_⟩
  · rw [runSimulation_eq _ 62 (by decide!) (by rw [c1]; omega), c1, e1]
  · rw [runSimulation_eq _ 301 (by decide!) (by rw [c5]; omega), c5, e5]
    simp only [List.append_assoc]
  · norm_num [Float32.toRat, timeStep32]
  · have h60 : timeAt 60 = ⟨536870752 * 2 ^ 120⟩ := by decide!
    rw [h60]
    norm_num [Float32.toRat]
  · norm_num

/-- C7, amended: in binary32 arithmetic, where the time step `1.0f / 60.0f` is
`8947849 / 2^29` and `currentTime` at the start of iteration `k` is `timeAt k` (0, then
one rounded addition of the time step per iteration), for every duration `d` with
`0 < d ≤ 5` the call `runSimulation(d)` runs its loop for exactly the iterations
`k = 0, 1, 2, ...` with `timeAt k < d`, calls `world.runPhysics` once in each of them,
and prints the object states in iteration `k` exactly when `k > 1` and 60 divides
`k - 1` (iterations 61, 121, 181, 241); iteration 0 prints nothing because
`static_cast<int>(0 - timeStep)` is 0. -/
theorem runSimulation_float_cadence (duration : Float32) (fuel : Nat)
    (hd : 0 < duration.units) (h5 : duration.units ≤ fiveSeconds.units)
    (hfuel : iterationCount duration < fuel) :
    runSimulation duration fuel =
      some ([Event.printRunning duration] ++ iterationsFrom 0 (iterationCount duration) ++
        [Event.printComplete]) ∧
    0 < iterationCount duration ∧ iterationCount duration ≤ 300 ∧
    (∀ k : Nat, k ≤ 300 →
      (k < iterationCount duration ↔ (timeAt k).units < duration.units)) ∧
    (Float32.ofInt 1 = some ⟨2 ^ 149⟩ ∧ Float32.ofInt 60 = some ⟨60 * 2 ^ 149⟩ ∧
      Float32.div ⟨2 ^ 149⟩ ⟨60 * 2 ^ 149⟩ = some timeStep32 ∧
      timeStep32.toRat = 8947849 / 536870912) ∧
    (Float32.ofInt 0 = some (timeAt 0) ∧
      ∀ k : Nat, k < 300 → (timeAt k).add timeStep32 = some (timeAt (k + 1))) ∧
    (∀ k : Nat, (iterationEvents k).count (Event.runPhysics timeStep32) = 1 ∧
      (Event.printObjectStates ∈ iterationEvents k ↔ (1 < k ∧ 60 ∣ k - 1))) ∧
    (∀ k : Nat, k < 300 →
      crossesSecond (timeAt k) timeStep32 = some (decide (1 < k ∧ 60 ∣ k - 1))) ∧
    (Float32.sub ⟨0⟩ timeStep32).bind Float32.toInt = some 0 := by
  refine ⟨runSimulation_eq duration fuel h5 hfuel, ?_, iterationCount_le duration h5,
    lt_iterationCount_iff duration h5, ⟨by decide!, by decide!, by decide!, ?_⟩,
    ⟨by decide!, timeAt_add⟩, ?_, timeAt_crosses, by decide!⟩
  · rw [lt_iterationCount_iff duration h5 0 (by omega)]
    have h0 : timeAt 0 = ⟨0⟩ := by decide!
    rw [h0]
    exact hd
  · norm_num [Float32.toRat, timeStep32]
  · intro k
    constructor
    · by_cases hc : 1 < k ∧ 60 ∣ k - 1 <;> simp [iterationEvents, hc]
    · by_cases hc : 1 < k ∧ 60 ∣ k - 1 <;> simp [iterationEvents, hc]

/-- Witness for C7: the duration `1.0f`, for which the loop runs 61 times. -/
theorem runSimulation_float_cadence_witness :
    0 < oneSecond.units ∧ oneSecond.units ≤ fiveSeconds.units ∧
    iterationCount oneSecond < 62 ∧
    runSimulation oneSecond 62 =
      some ([Event.printRunning oneSecond] ++ iterationsFrom 0 (iterationCount oneSecond) ++
        [Event.printComplete]) :=
  have hd : 0 < oneSecond.units := by decide!
  have h5 : oneSecond.units ≤ fiveSeconds.units := by decide!
  have hc : iterationCount oneSecond < 62 := by decide!
  ⟨hd, h5, hc, (runSimulation_float_cadence oneSecond 62 hd h5 hc).1⟩

end PhysicsDemo
